import Mathlib

/-!
# Verification of the LingSync → OLD migration pipeline (`lingsync2old.py`)

This file is a shallow embedding, in Lean 4, of the conversion and upload
logic of `lingsync2old.py` (the core of the dativebase/lingsync2old
repository), together with theorems settling a list of specification claims
about that program.

Conventions of the embedding:

* Python unicode strings are Lean `String`s; `len`, slicing and indexing act
  on the list of code points (`String.data`), matching a UCS-4 CPython 2
  build on the ASCII/BMP data this program handles.
* Python `dict` payloads whose key sets are fixed by the program (the
  `old_schemata` templates) are Lean structures with one field per key.
* A Python value that may be `None` or absent is an `Option`; where the
  source only ever tests a string with `if x:` (truthiness), `None` and the
  empty string behave identically and are both modelled by `""`, noted at
  each such definition.
* `sys.exit(...)` (a fatal abort) is an explicit `fatal` result constructor.
* Network calls made by the uploader are modelled by an oracle: a list of
  responses consumed one per issued request, each response being
  `Option Nat` (`some id` for a response carrying a valid new id, `none`
  for any response the source's `assert r.get('id')` would reject).  Every
  issued create/delete/update request is recorded in a log.
-/

namespace LingSync2Old

/-! ## CPython 2.7 semantics used by the source

`consolidate_users` (lingsync2old.py lines 765-786) computes
`vals = list(set([u[attr] for u in duplicates if u[attr]]))` and keeps
`vals[0]`.  The order of `list(set(...))` is CPython's hash-table order,
so we model the CPython 2.7 string hash (64-bit build, hash randomization
off — the default) and the `set` insertion/iteration order exactly.
-/

/-- `2^64`, the modulus of C `long`/`size_t` arithmetic on a 64-bit build. -/
def M64 : Nat := 18446744073709551616

/-- CPython 2.7 `unicode` hash (Objects/unicodeobject.c `unicode_hash`,
64-bit build): `x = s[0] << 7; for c in s: x = (1000003*x) ^ c;
x ^= len(s); if x == -1: x = -2`, in two's-complement `long` arithmetic,
represented here as a natural number below `2^64`. -/
def pyhash (s : String) : Nat :=
  match s.data with
  | [] => 0
  | c0 :: _ =>
    let x0 := (c0.toNat <<< 7) % M64
    let x := s.data.foldl (fun x c => ((1000003 * x) % M64) ^^^ c.toNat) x0
    let x := x ^^^ (s.data.length % M64)
    if x = M64 - 1 then M64 - 2 else x

/-- One insertion into a CPython 2.7 `set` hash table of 8 slots
(Objects/setobject.c `set_lookkey`): first probe at `hash & mask`; on a
collision, `i = 5*i + perturb + 1` (mod `2^64`), probe `i & mask`,
`perturb >>= 5`.  The fuel argument bounds the probe chain; a table that
is not full is always found in well under 64 probes. -/
def pySetProbe (key : String) : Nat → Nat → Nat → List (Option String) → List (Option String)
  | 0, _, _, table => table
  | fuel + 1, i, perturb, table =>
    match table.get? (i % 8) with
    | some none => table.set (i % 8) (some key)
    | some (some k) =>
      if k = key then table
      else pySetProbe key fuel ((5 * i + perturb + 1) % M64) (perturb >>> 5) table
    | none => table

/-- Insert a string into the 8-slot set table. -/
def pySetInsert (table : List (Option String)) (key : String) : List (Option String) :=
  let h := pyhash key
  pySetProbe key 64 (h % 8) h table

/-- `list(set(xs))` for a CPython 2.7 `set` of unicode strings that stays
within the initial 8-slot table (at most 5 distinct elements, below the
resize threshold — every call site in the source passes the handful of
distinct values of one attribute across duplicate payloads).  Iteration
walks the slots in table order. -/
def pySetList (xs : List String) : List String :=
  (xs.foldl pySetInsert (List.replicate 8 none)).filterMap id

/-- Python `u'’, ‘'.join(l)`. -/
def joinDiscards (l : List String) : String := String.intercalate "’, ‘" l

/-! ## The OLD user payload

`old_schemata['user']` (lines 397-410) fixes the key set of every user
payload the converter builds (`process_lingsync_user`, the fabricated
elicitor users, and the consolidator all use exactly these keys).  The two
orthography keys are always `None` and are never merged into a non-`None`
value, so they are omitted from the record. -/
structure OLDUser where
  username : String := ""
  password : String := ""
  password_confirm : String := ""
  first_name : String := ""
  last_name : String := ""
  email : String := ""
  affiliation : String := ""
  role : String := ""
  markup_language : String := ""
  page_content : String := ""
  deriving Repr, DecidableEq

/-- The warning text of lines 781-784, for one attribute. -/
def userAttrWarning (newVal attr : String) (discarded : List String) : String :=
  "Lost data when consolidating users: we chose ‘" ++ newVal ++
    "’ as the val for ‘" ++ attr ++
    "’ and the following values were discarded: ‘" ++ joinDiscards discarded ++ "’."

/-- Lines 775-785 for a single non-key attribute: deduplicate the truthy
(non-empty) values via a Python `set`, keep `vals[0]` (or `u''` when
empty), and warn when more than one distinct value was seen. -/
def consolidateUserAttr (attr : String) (vals : List String) : String × List String :=
  let dvals := pySetList (vals.filter (fun v => v ≠ ""))
  let newVal := dvals.headD ""
  if dvals.length > 1 then (newVal, [userAttrWarning newVal attr dvals.tail])
  else (newVal, [])

/-- `consolidate_users` (lines 765-786): the consolidated user keeps the
first duplicate's `username`; every other attribute is consolidated
attribute-wise.  The source iterates `for attr in duplicates[0]` over the
fixed key set above; CPython 2 dict key order is hash-table order, which
only affects the order of the returned warning list, never its members
nor any attribute's value — we fix the schema order.  Called by
`consolidate_resources` only with two or more duplicates; we totalize with
an empty-payload result on `[]`. -/
def consolidate_users (duplicates : List OLDUser) : OLDUser × List String :=
  let d0 := duplicates.headD {}
  let pw := consolidateUserAttr "password" (duplicates.map (·.password))
  let pwc := consolidateUserAttr "password_confirm" (duplicates.map (·.password_confirm))
  let fn := consolidateUserAttr "first_name" (duplicates.map (·.first_name))
  let ln := consolidateUserAttr "last_name" (duplicates.map (·.last_name))
  let em := consolidateUserAttr "email" (duplicates.map (·.email))
  let af := consolidateUserAttr "affiliation" (duplicates.map (·.affiliation))
  let ro := consolidateUserAttr "role" (duplicates.map (·.role))
  let ml := consolidateUserAttr "markup_language" (duplicates.map (·.markup_language))
  let pc := consolidateUserAttr "page_content" (duplicates.map (·.page_content))
  ({ username := d0.username, password := pw.1, password_confirm := pwc.1,
     first_name := fn.1, last_name := ln.1, email := em.1, affiliation := af.1,
     role := ro.1, markup_language := ml.1, page_content := pc.1 },
   pw.2 ++ pwc.2 ++ fn.2 ++ ln.2 ++ em.2 ++ af.2 ++ ro.2 ++ ml.2 ++ pc.2)

/-! ## Python string helpers used across the mapper functions -/

/-- Tokenizer for Python `str.split()`: the second argument accumulates
the current token's characters in reverse. -/
def pySplitAux : List Char → List Char → List String
  | [], acc => if acc.isEmpty then [] else [String.mk acc.reverse]
  | c :: cs, acc =>
    if c.isWhitespace then
      if acc.isEmpty then pySplitAux cs []
      else String.mk acc.reverse :: pySplitAux cs []
    else pySplitAux cs (c :: acc)

/-- Python `str.split()` with no argument: split on runs of whitespace,
discarding empty pieces (ASCII whitespace suffices for this corpus). -/
def pySplit (s : String) : List String := pySplitAux s.data []

/-- Python `s[:n]` on a unicode string: the first `n` code points. -/
def pyTake (n : Nat) (s : String) : String := String.mk (s.data.take n)

/-- Python `len(s)` on a unicode string. -/
def pyLen (s : String) : Nat := s.data.length

/-- `punctuate_period_safe` (lines 2193-2202): append a final period unless
the string already ends in sentence-final punctuation.  The source indexes
`string[-1]` and is only ever called on non-empty strings; we totalize by
punctuating the empty string. -/
def punctuate_period_safe (s : String) : String :=
  match s.data.getLast? with
  | some c => if c = '?' ∨ c = '.' ∨ c = '!' then s else s ++ "."
  | none => s ++ "."

/-- Python `s.upper()` (ASCII, as in this corpus's data). -/
def pyUpper (s : String) : String := String.mk (s.data.map Char.toUpper)

/-- Python `s.lower().capitalize()`: first code point upper-cased, the rest
lower-cased (ASCII). -/
def pyCapitalize (s : String) : String :=
  match s.data with
  | [] => ""
  | c :: cs => String.mk (c.toUpper :: cs.map Char.toLower)

/-- Python `str.strip()`: drop leading and trailing whitespace. -/
def pyStrip (s : String) : String :=
  String.mk (((s.data.dropWhile Char.isWhitespace).reverse.dropWhile Char.isWhitespace).reverse)

/-- `my_strip` (lines 1233-1241) on a possibly-absent string: `strip()`
when the value is a string, identity (here: `none`) when it is `None`. -/
def my_strip (t : Option String) : Option String := t.map pyStrip

/-! ## `datetime.datetime.strptime` for the two accepted date formats

Lines 1476-1484 and 2157-2164 parse a date string first with format
`'%Y-%m-%d'` and then with `'%m/%d/%Y'`.  CPython's `_strptime` compiles
`%Y` to `\d\d\d\d`, `%m` to `1[0-2]|0[1-9]|[1-9]` and `%d` to
`3[01]|[12]\d|0[1-9]|[1-9]`, anchors the match and rejects unconverted
trailing data; `datetime` then validates the day against the month length.
Because the separators are non-digits and each directive consumes only
digits, the anchored regex accepts exactly the strings whose
separator-delimited components each fully match their directive. -/

/-- `%m`: `1[0-2]|0[1-9]|[1-9]` as a full match of one component. -/
def matchMonth : List Char → Option Nat
  | ['1', c] => if '0' ≤ c ∧ c ≤ '2' then some (10 + (c.toNat - 48)) else none
  | ['0', c] => if '1' ≤ c ∧ c ≤ '9' then some (c.toNat - 48) else none
  | [c] => if '1' ≤ c ∧ c ≤ '9' then some (c.toNat - 48) else none
  | _ => none

/-- `%d`: `3[01]|[12]\d|0[1-9]|[1-9]` as a full match of one component. -/
def matchDay : List Char → Option Nat
  | ['3', c] => if c = '0' ∨ c = '1' then some (30 + (c.toNat - 48)) else none
  | ['1', c] => if c.isDigit then some (10 + (c.toNat - 48)) else none
  | ['2', c] => if c.isDigit then some (20 + (c.toNat - 48)) else none
  | ['0', c] => if '1' ≤ c ∧ c ≤ '9' then some (c.toNat - 48) else none
  | [c] => if '1' ≤ c ∧ c ≤ '9' then some (c.toNat - 48) else none
  | _ => none

/-- `%Y`: exactly four digits. -/
def matchYear : List Char → Option Nat
  | [a, b, c, d] =>
    if a.isDigit ∧ b.isDigit ∧ c.isDigit ∧ d.isDigit then
      some ((((a.toNat - 48) * 10 + (b.toNat - 48)) * 10 + (c.toNat - 48)) * 10 + (d.toNat - 48))
    else none
  | _ => none

/-- Gregorian leap year, as in CPython's `datetime`. -/
def isLeap (y : Nat) : Bool := y % 4 = 0 ∧ (y % 100 ≠ 0 ∨ y % 400 = 0)

/-- Days in a month, as validated by `datetime.datetime`. -/
def daysInMonth (y m : Nat) : Nat :=
  if m = 2 then (if isLeap y then 29 else 28)
  else if m = 4 ∨ m = 6 ∨ m = 9 ∨ m = 11 then 30
  else 31

/-- The `datetime.datetime(y, m, d)` range check (month shape is already
enforced by the directives; `MINYEAR = 1`). -/
def validDate (y m d : Nat) : Bool := 1 ≤ y ∧ d ≤ daysInMonth y m

/-- `datetime.datetime.strptime(s, '%Y-%m-%d')`, as `some (y, m, d)` or
`none` for the exception. -/
def strptimeYMD (s : String) : Option (Nat × Nat × Nat) :=
  match s.data.splitOn '-' with
  | [ys, ms, ds] =>
    match matchYear ys, matchMonth ms, matchDay ds with
    | some y, some m, some d => if validDate y m d then some (y, m, d) else none
    | _, _, _ => none
  | _ => none

/-- `datetime.datetime.strptime(s, '%m/%d/%Y')`. -/
def strptimeMDY (s : String) : Option (Nat × Nat × Nat) :=
  match s.data.splitOn '/' with
  | [ms, ds, ys] =>
    match matchYear ys, matchMonth ms, matchDay ds with
    | some y, some m, some d => if validDate y m d then some (y, m, d) else none
    | _, _, _ => none
  | _ => none

/-- Python `str(n).zfill(2)` for the month/day components. -/
def zfill2 (n : Nat) : String := if n < 10 then "0" ++ toString n else toString n

/-- The try/except cascade of lines 1476-1484 (and 2157-2164) followed by
the formatting of lines 1489-1494: parse as ISO, then as `MM/DD/YYYY`;
on success rebuild `u'%s/%s/%s' % (str(m).zfill(2), str(d).zfill(2), str(y))`. -/
def normalizeDate (s : String) : Option String :=
  match (strptimeYMD s).orElse (fun _ => strptimeMDY s) with
  | some (y, m, d) => some (zfill2 m ++ "/" ++ zfill2 d ++ "/" ++ toString y)
  | none => none

/-! ## Source documents and destination payloads -/

/-- One entry of a LingSync `sessionFields`/`fields`/`datumFields` array:
a dict with a `label` and a `value`.  The source reads `value` with
`.get('value')` and then only tests it for truthiness, so an absent or
`None` value is modelled by `""`. -/
structure LSField where
  label : String
  value : String
  deriving Repr, DecidableEq

/-- `get_val_from_session_fields` / `get_val_from_datum_fields`
(lines 2205-2261): the `value` of the first entry whose `label` matches,
with `None` (no matching entry, or a falsy entry value) collapsed to `""`
as explained on `LSField`. -/
def getFieldVal (attr : String) (fields : List LSField) : String :=
  match fields.find? (fun f => f.label = attr) with
  | some f => f.value
  | none => ""

/-- An OLD speaker payload, `old_schemata['speaker']` (lines 412-418). -/
structure Speaker where
  first_name : String := ""
  last_name : String := ""
  dialect : String := ""
  page_content : String := ""
  markup_language : String := ""
  deriving Repr, DecidableEq

/-- An OLD tag payload, `old_schemata['tag']` (lines 420-423). -/
structure Tag where
  name : String := ""
  description : String := ""
  deriving Repr, DecidableEq

/-- The fields of `old_schemata['form']` (lines 357-379) that the datum
mapper valuates, plus the private `__lingsync_*` bookkeeping keys it adds.
A translation is its `(transcription, grammaticality)` pair.
`validation status: ...` pseudo-tags appended at line 1678 are plain
strings in the source's `old_tags` list; we keep them as `Tag`s named by
that string, which is how the upload stage reads them (`tag['name']`). -/
structure OldForm where
  transcription : String := ""
  phonetic_transcription : String := ""
  morpheme_break : String := ""
  grammaticality : String := ""
  morpheme_gloss : String := ""
  translations : List (String × String) := []
  comments : String := ""
  -- the OLD form's `syntax` field (that word is a Lean keyword, so `syn`)
  syn : String := ""
  status : String := ""
  speaker : Option Speaker := none
  elicitor : Option OLDUser := none
  tags : List Tag := []
  date_elicited : String := ""
  date_entered : String := ""
  lingsync_deleted : Bool := false
  lingsync_session_id : Option String := none
  lingsync_datum_id : String := ""
  deriving Repr, DecidableEq

/-- The fields of `old_schemata['collection']` (lines 381-395) that the
session mapper valuates, plus the private session-id key. -/
structure OldCollection where
  title : String := ""
  type : String := ""
  description : String := ""
  contents : String := ""
  speaker : Option Speaker := none
  elicitor : Option OLDUser := none
  date_elicited : String := ""
  tags : List Tag := []
  lingsync_session_id : String := ""
  deriving Repr, DecidableEq

/-- `FAKE_EMAIL` (line 160). -/
def FAKE_EMAIL : String := "fakeemail@gmail.com"

/-- The `session` attribute a datum redundantly carries (the attributes of
it that `process_lingsync_datum` reads). -/
structure LSSessionRef where
  sid : String
  sessionFields : Option (List LSField) := none
  fields : Option (List LSField) := none
  dialect : Option String := none
  deriving Repr, DecidableEq

/-- A LingSync datum document, restricted to the attributes the claims
exercise: documents whose `audioVideo`, `images`, `comments` and
`datumTags` attributes are absent (those blocks of the mapper then do
nothing), and whose attribute keys are all in the mapper's
`known_attrs` allow-list (the unknown-attribute scan over the raw dict
then adds nothing; the corresponding scan over `datumFields` labels *is*
modelled, since `datumFields` is an explicit list). -/
structure LSDatumDoc where
  did : String
  datumFields : List LSField := []
  session : Option LSSessionRef := none
  trashed : Option String := none
  dateEntered : Option String := none
  dateModified : Option String := none
  deriving Repr, DecidableEq

/-- `known_fields` of `process_lingsync_datum` (lines 1366-1383). -/
def datumKnownFields : List String :=
  ["judgement", "morphemes", "utterance", "gloss", "translation",
   "validationStatus", "tags", "syntacticCategory", "syntacticTreeLatex",
   "enteredByUser", "modifiedByUser", "comments", "markAsNeedsToBeSaved",
   "checked", "notes", "phonetic"]

/-- The result of mapping one datum: the `oldobj` dict of lines 1427-1434
as valuated by lines 1887-1889 (`old_resource` is always `'forms'` and
`old_value` is always the built form — a datum conversion never returns a
null primary payload). -/
structure DatumResult where
  old_form : OldForm
  aux_speakers : List Speaker := []
  aux_users : List OLDUser := []
  aux_tags : List Tag := []
  docspecific : List String := []
  general : List String := []
  deriving Repr, DecidableEq

/-- Lines 1470-1498: normalize `datum.session.sessionFields.dateElicited`
(note: this block reads only `sessionFields`, defaulting to `[]`, with no
`fields` fallback).  Returns the normalized date (if any), the
`date_datum_elicited_unparseable` flag, and the docspecific warnings the
block appends. -/
def datumDateStep (dateStr datumId : String) : Option String × Bool × List String :=
  if dateStr = "" then (none, false, [])
  else match normalizeDate dateStr with
    | some d => (some d, false, [])
    | none =>
      (none, true,
       ["Unable to parse " ++ dateStr ++
        " to an OLD-compatible date in MM/DD/YYYY format for datum " ++ datumId ++ "."])

/-- Lines 1610-1634: parse one consultants string into speakers.  Two
capitalized tokens are a first+last name; otherwise each token is one
speaker, an all-caps token split as initials; `dialect` (when non-empty)
is set only in the token-per-speaker branch, as in the source. -/
def parseConsultants (consultants dialect : String) : List Speaker :=
  let cl := pySplit consultants
  match cl with
  | [c0, c1] =>
    if c0 = pyCapitalize c0 ∧ c1 = pyCapitalize c1 then
      [{ first_name := c0, last_name := c1 }]
    else
      cl.map (fun c =>
        let base : Speaker :=
          if pyUpper c = c then
            { first_name := String.mk (c.data.take 1), last_name := String.mk (c.data.drop 1) }
          else { first_name := c, last_name := c }
        if dialect ≠ "" then { base with dialect := dialect } else base)
  | _ =>
    cl.map (fun c =>
      let base : Speaker :=
        if pyUpper c = c then
          { first_name := String.mk (c.data.take 1), last_name := String.mk (c.data.drop 1) }
        else { first_name := c, last_name := c }
      if dialect ≠ "" then { base with dialect := dialect } else base)

/-- The docspecific warning of lines 1639-1645 (multiple consultants). -/
def multiSpeakerWarning (datumId : String) : String :=
  "Datum " ++ datumId ++ " has more than one consultant listed. Since OLD forms only allow one speaker, we are just going to associate the first speaker to the OLD form created form this LingSync datum. The additional LingSync speakers will still be created as OLD speakers, however, and ALL LingSync consultants will be documented in the form's comments field."

/-- The two general warnings of lines 1657-1659 and 1664-1666 (fabricated
elicitor). -/
def elicitorWarnings (enteredByUser : String) : List String :=
  ["Form elicitor values are being supplied by datum.session.enteredByUser values. This may be inaccurate. Change as needed in the Dative/OLD interface.",
   "Created a user (with username " ++ enteredByUser ++ ") with a fake email: " ++ FAKE_EMAIL ++ ". Please fix manually, i.e., from within the Dative/OLD interface."]

/-- The general warning of lines 1726-1731 (over-long grammaticality). -/
def judgementGeneralWarning : String :=
  "You have some grammaticality values that contain more than three characters, suggesting that these values are comments and not true grammaticalities. We have tried to separate the true grammaticalities from the comments. Search for \"Comment from LingSync judgement field:\" in the comments field of forms in the resulting OLD database."

/-- Lines 1721-1743: the grammaticality repair.  Returns the
`grammaticality` value and the `(old_comments entry?, general warnings)`
the block appends. -/
def judgementStep (lsJudgement : String) : String × Option String × List String :=
  if lsJudgement = "" then ("", none, [])
  else if pyLen lsJudgement > 3 then
    let prefixChars := lsJudgement.data.takeWhile (fun c => c = '*' ∨ c = '?' ∨ c = '#' ∨ c = '!')
    (String.mk prefixChars,
     some (punctuate_period_safe ("Comment from LingSync judgement field: " ++ lsJudgement)),
     [judgementGeneralWarning])
  else (lsJudgement, none, [])

/-- Lines 1682-1695: transcription from utterance (empty ⇒ the literal
`u'PLACEHOLDER'`, silently; over-long ⇒ truncate to 255 with a docspecific
warning).  Returns `(value, too_long flag, warnings)`. -/
def transcriptionStep (lsUtterance datumId : String) : String × Bool × List String :=
  if lsUtterance = "" then ("PLACEHOLDER", false, [])
  else if pyLen lsUtterance > 255 then
    (pyTake 255 lsUtterance, true,
     ["The utterance \"" ++ lsUtterance ++ "\" of datum " ++ datumId ++ " is too long and will be truncated."])
  else (lsUtterance, false, [])

/-- Lines 1697-1706: morpheme break (max 255). -/
def morphemesStep (lsMorphemes datumId : String) : String × Bool × List String :=
  if lsMorphemes = "" then ("", false, [])
  else if pyLen lsMorphemes > 255 then
    (pyTake 255 lsMorphemes, true,
     ["The morphemes \"" ++ lsMorphemes ++ "\" of datum " ++ datumId ++ " is too long and will be truncated."])
  else (lsMorphemes, false, [])

/-- Lines 1708-1719: phonetic transcription (max 255). -/
def phoneticStep (lsPhonetic datumId : String) : String × Bool × List String :=
  if lsPhonetic = "" then ("", false, [])
  else if pyLen lsPhonetic > 255 then
    (pyTake 255 lsPhonetic, true,
     ["The phonetic value \"" ++ lsPhonetic ++ "\" of datum " ++ datumId ++ " is too long and will be truncated."])
  else (lsPhonetic, false, [])

/-- Lines 1745-1754: morpheme gloss (max 255). -/
def glossStep (lsGloss datumId : String) : String × Bool × List String :=
  if lsGloss = "" then ("", false, [])
  else if pyLen lsGloss > 255 then
    (pyTake 255 lsGloss, true,
     ["The gloss \"" ++ lsGloss ++ "\" of datum " ++ datumId ++ " is too long and will be truncated."])
  else (lsGloss, false, [])

/-- Lines 1756-1767: translations (empty ⇒ one `u'PLACEHOLDER'`
translation, silently). -/
def translationStep (lsTranslation : String) : List (String × String) :=
  if lsTranslation = "" then [("PLACEHOLDER", "")] else [(lsTranslation, "")]

/-- Lines 1769-1778: the OLD `syntax` field from `syntacticTreeLatex`.
The source checks `len > 1023` but slices `[:255]` in the over-long
branch — this is embedded exactly as written. -/
def syntacticTreeStep (lsTree datumId : String) : String × Bool × List String :=
  if lsTree = "" then ("", false, [])
  else if pyLen lsTree > 1023 then
    (pyTake 255 lsTree, true,
     ["The syntacticTreeLatex \"" ++ lsTree ++ "\" of datum " ++ datumId ++ " is too long and will be truncated."])
  else (lsTree, false, [])

/-- `process_lingsync_datum` (lines 1353-1891) on the restricted documents
of `LSDatumDoc`, assembled from the step functions above in source order.
`lingsync_db_name` is the corpus name parameter of the source function.
Warning lists are accumulated in the source's append order:
docspecific = unknown labels, date, multi-consultant, validationStatus,
utterance, morphemes, phonetic, gloss, syntacticTreeLatex;
general = elicitor, judgement. -/
def process_lingsync_datum (doc : LSDatumDoc) (lingsync_db_name : String) : DatumResult :=
  let datumId := doc.did
  -- lines 1421-1424: unknown labels in `datumFields`
  let labelWarnings := (doc.datumFields.filter
      (fun f => ¬ datumKnownFields.contains f.label)).map
    (fun f => "‘" ++ f.label ++ "’ not a recognized label in fields for datum " ++ datumId)
  -- lines 1454-1461: field extraction
  let lsJudgement := getFieldVal "judgement" doc.datumFields
  let lsMorphemes := getFieldVal "morphemes" doc.datumFields
  let lsUtterance := getFieldVal "utterance" doc.datumFields
  let lsGloss := getFieldVal "gloss" doc.datumFields
  let lsTranslation := getFieldVal "translation" doc.datumFields
  let lsValidationStatus := getFieldVal "validationStatus" doc.datumFields
  let lsTags := getFieldVal "tags" doc.datumFields
  let lsTree := getFieldVal "syntacticTreeLatex" doc.datumFields
  -- lines 1470-1498: date elicited (reads only `session.sessionFields`)
  let dateSessionElicited :=
    match doc.session with
    | some sref => getFieldVal "dateElicited" (sref.sessionFields.getD [])
    | none => ""
  let dateRes :=
    match doc.session with
    | some _ => datumDateStep dateSessionElicited datumId
    | none => (none, false, [])
  -- lines 1557-1562: the `tags` datum field, a whitespace-delimited string
  let fieldTags := (pySplit lsTags).map (fun t => ({ name := t } : Tag))
  -- lines 1589-1593: soft-delete flag
  let deleted := doc.trashed = some "deleted"
  -- lines 1599-1634: speakers from `session` consultants
  let speakers : List Speaker :=
    match doc.session with
    | some sref =>
      let effFields :=
        match sref.sessionFields with
        | some l => if l.isEmpty then sref.fields.getD [] else l
        | none => sref.fields.getD []
      let consultants := getFieldVal "consultants" effFields
      let dialect :=
        let d := getFieldVal "dialect" effFields
        if d = "" then sref.dialect.getD "" else d
      if consultants ≠ "" then parseConsultants consultants dialect else []
    | none => []
  let speakerWarnings := if speakers.length > 1 then [multiSpeakerWarning datumId] else []
  let speakerComment :=
    if speakers.length > 1 then
      [punctuate_period_safe ("Consultants: " ++
        String.intercalate ", " (speakers.map (fun s => s.first_name ++ " " ++ s.last_name)))]
    else []
  -- lines 1655-1670: fabricated elicitor
  let lsEnteredByUser := getFieldVal "enteredByUser" doc.datumFields
  let elicitor : Option OLDUser :=
    if lsEnteredByUser ≠ "" then
      some { username := lsEnteredByUser, first_name := lsEnteredByUser,
             last_name := lsEnteredByUser, email := FAKE_EMAIL, role := "administrator" }
    else none
  let elicitorGeneral := if lsEnteredByUser ≠ "" then elicitorWarnings lsEnteredByUser else []
  -- lines 1676-1680: validationStatus
  let validationTags :=
    if lsValidationStatus ≠ "" ∧ lsValidationStatus ≠ "Checked" then
      [({ name := "validation status: " ++ lsValidationStatus } : Tag)]
    else []
  let validationWarnings :=
    if lsValidationStatus ≠ "" ∧ lsValidationStatus ≠ "Checked" then
      ["Unrecognized validationStatus ‘" ++ lsValidationStatus ++ "’ in datum " ++ datumId]
    else []
  -- the length-bounded fields and the judgement repair
  let tr := transcriptionStep lsUtterance datumId
  let mo := morphemesStep lsMorphemes datumId
  let lsPhonetic := getFieldVal "phonetic" doc.datumFields
  let ph := phoneticStep lsPhonetic datumId
  let ju := judgementStep lsJudgement
  let gl := glossStep lsGloss datumId
  let translations := translationStep lsTranslation
  let sy := syntacticTreeStep lsTree datumId
  -- lines 1788-1812: creation metadata
  let lsModifiedByUser := getFieldVal "modifiedByUser" doc.datumFields
  let lsDateModified := (doc.dateModified.getD "")
  let lsDateEntered := (doc.dateEntered.getD "")
  let creationMetadata :=
    (if lsEnteredByUser ≠ "" ∧ lsDateEntered ≠ "" then
      ["This form was created from LingSync datum " ++ datumId ++ " (in corpus " ++
       lingsync_db_name ++ "), which was created by " ++ lsEnteredByUser ++ " on " ++
       lsDateEntered ++ "."] else []) ++
    (if lsModifiedByUser ≠ "" ∧ lsDateModified ≠ "" then
      ["The datum was last modified in LingSync by " ++ lsModifiedByUser ++ " on " ++
       lsDateModified ++ "."] else []) ++
    (if dateRes.2.1 then ["The datum was elicited on " ++ dateSessionElicited ++ "."] else [])
  let creationMetadataStr := pyStrip (String.intercalate " " creationMetadata)
  -- lines 1830-1834: non-standard notes field
  let lsNotes := getFieldVal "notes" doc.datumFields
  let notesComment :=
    if lsNotes ≠ "" then ["LingSync notes: " ++ punctuate_period_safe lsNotes] else []
  -- lines 1841-1868: errored (truncated/unusable) data, one paragraph
  let lsSyntacticCategory := getFieldVal "syntacticCategory" doc.datumFields
  let erroredData :=
    (if tr.2.1 then ["LingSync datum utterance value without truncation: ‘" ++
        punctuate_period_safe lsUtterance ++ "’"] else []) ++
    (if mo.2.1 then ["LingSync morphemes value without truncation: ‘" ++
        punctuate_period_safe lsMorphemes ++ "’"] else []) ++
    (if ph.2.1 then ["LingSync phonetic value without truncation: ‘" ++
        punctuate_period_safe lsPhonetic ++ "’"] else []) ++
    (if gl.2.1 then ["LingSync datum gloss value without truncation: ‘" ++
        punctuate_period_safe lsGloss ++ "’"] else []) ++
    (if lsSyntacticCategory ≠ "" then ["LingSync syntacticCategory value: ‘" ++
        lsSyntacticCategory ++ "’"] else []) ++
    (if sy.2.1 then ["LingSync datum syntacticTreeLatex value without truncation: ‘" ++
        punctuate_period_safe lsTree ++ "’"] else [])
  let erroredDataStr := pyStrip (String.intercalate " " erroredData)
  -- lines 1443, 1648, 1741, 1812, 1834, 1868, 1870-1872: old_comments
  let oldComments :=
    speakerComment ++
    (match ju.2.1 with | some c => [c] | none => []) ++
    (if creationMetadataStr ≠ "" then [creationMetadataStr] else []) ++
    notesComment ++
    (if erroredDataStr ≠ "" then [erroredDataStr] else [])
  let commentsStr := pyStrip (String.intercalate "\n\n" oldComments)
  -- lines 1874-1878: accumulated tags
  let oldTags := fieldTags ++ validationTags
  { old_form :=
      { transcription := tr.1
        phonetic_transcription := ph.1
        morpheme_break := mo.1
        grammaticality := ju.1
        morpheme_gloss := gl.1
        translations := translations
        comments := commentsStr
        syn := sy.1
        status := "tested"
        speaker := speakers.head?
        elicitor := elicitor
        tags := oldTags
        date_elicited := (dateRes.1.getD "")
        date_entered := lsDateEntered
        lingsync_deleted := deleted
        lingsync_session_id := doc.session.map (·.sid)
        lingsync_datum_id := datumId }
    aux_speakers := speakers
    aux_users := match elicitor with | some e => [e] | none => []
    aux_tags := oldTags
    docspecific := labelWarnings ++ dateRes.2.2 ++ speakerWarnings ++
      validationWarnings ++ tr.2.2 ++ mo.2.2 ++ ph.2.2 ++ gl.2.2 ++ sy.2.2
    general := elicitorGeneral ++ ju.2.2 }

/-! ## `process_lingsync_session` (lines 1929-2190) -/

/-- A LingSync session document, restricted to the attributes the claims
exercise: documents without a `comments` attribute (so the description
paragraph list of lines 2070-2097 is computed but, per lines 2099-2105,
never assigned — the collection keeps the schema's empty `description`)
and whose attribute keys are all in `known_attrs` (so the raw-dict
unknown-attribute scan adds nothing; the scan over field labels *is*
modelled). -/
structure LSSessionDoc where
  sid : String
  sessionFields : Option (List LSField) := none
  fields : Option (List LSField) := none
  trashed : Option String := none
  dateCreated : Option String := none
  dateModified : Option String := none
  lastModifiedBy : Option String := none
  dialect : Option String := none
  language : Option String := none
  collection : Option String := none
  fieldDBtype : Option String := none
  deriving Repr, DecidableEq

/-- `known_fields` of `process_lingsync_session` (lines 1958-1969). -/
def sessionKnownFields : List String :=
  ["goal", "consultants", "dialect", "language", "dateElicited", "user",
   "dateSEntered", "participants", "DateSessionEntered", "dateSessionEntered"]

/-- The mapping of one consultants token to a speaker (lines 2112-2125):
an all-caps token is initials (first char / rest), otherwise the token is
both first and last name; `dialect` is set when truthy. -/
def sessionConsultantToken (dialect c : String) : Speaker :=
  let base : Speaker :=
    if pyUpper c = c then
      { first_name := String.mk (c.data.take 1), last_name := String.mk (c.data.drop 1) }
    else { first_name := c, last_name := c }
  if dialect ≠ "" then { base with dialect := dialect } else base

/-- The result of mapping one session: the `oldobj` of lines 2014-2021
as valuated by lines 2182-2190 (`old_resource` is `'collections'`). -/
structure SessionResult where
  old_collection : OldCollection
  aux_speakers : List Speaker := []
  aux_users : List OLDUser := []
  docspecific : List String := []
  language : Option String := none
  deriving Repr, DecidableEq

/-- `process_lingsync_session` (lines 1929-2190).  Returns `none` when the
document has neither a truthy `sessionFields` nor a truthy `fields`
attribute (lines 1942-1950 — the source prints an `ERROR` line and the
document, then returns `None`), or when the session is marked deleted
(lines 1952-1954). -/
def process_lingsync_session (doc : LSSessionDoc) : Option SessionResult :=
  let sessionId := doc.sid
  -- lines 1942-1945: `sessionFields`, falling back to `fields` when falsy
  let sf0 := doc.sessionFields.getD []
  let session_fields := if sf0.isEmpty then doc.fields.getD [] else sf0
  if session_fields.isEmpty then none
  else if doc.trashed = some "deleted" then none
  else
    -- lines 2008-2011: unknown labels
    let labelWarnings := (session_fields.filter
        (fun f => ¬ sessionKnownFields.contains f.label)).map
      (fun f => "‘" ++ f.label ++ "’ not a recognized label in fields for session " ++ sessionId)
    -- lines 2028-2044: field extraction, with attribute fallbacks
    let goal := getFieldVal "goal" session_fields
    let consultants := getFieldVal "consultants" session_fields
    let dateSessionElicited := getFieldVal "dateElicited" session_fields
    let user := getFieldVal "user" session_fields
    let dialect :=
      let d := getFieldVal "dialect" session_fields
      if d = "" then doc.dialect.getD "" else d
    let language :=
      let l := getFieldVal "language" session_fields
      if l = "" then doc.language.getD "" else l
    -- lines 2047-2064: title
    let titleRes : String × List String :=
      if goal = "" then
        let w1 := "Session " ++ sessionId ++ " has no goal so its date elicited is being used for title of the the OLD collection built from it."
        if dateSessionElicited ≠ "" then
          ("Elicitation Session on " ++ dateSessionElicited, [w1])
        else
          ("Elicitation Session " ++ sessionId,
           [w1, "Session " ++ sessionId ++ " has no date elicited so its id is being used for the title of the OLD collection built from it."])
      else if pyLen goal > 255 then
        (pyTake 255 goal,
         ["The goal \"" ++ goal ++ "\" of session " ++ sessionId ++ " is too long and will be truncated."])
      else (goal, [])
    -- lines 2110-2135: speakers from consultants
    let speakers : List Speaker :=
      if consultants ≠ "" then (pySplit consultants).map (sessionConsultantToken dialect)
      else []
    let speakerWarnings :=
      if speakers.length > 1 then
        ["Session " ++ sessionId ++ " has more than one consultant listed. Since OLD collections only allow one speaker, we are just going to associate the first speaker to the OLD collection created form this LingSync session. The additional LingSync speakers will still be created as OLD speakers, however."]
      else []
    -- lines 2141-2149: elicitor from the session's `user` field (no warning)
    let elicitor : Option OLDUser :=
      if user ≠ "" then
        some { username := user, first_name := user, last_name := user,
               email := FAKE_EMAIL, role := "administrator" }
      else none
    -- lines 2155-2180: date elicited; unparseable dates are silently dropped
    -- (the warning of lines 2168-2170 is commented out in the source)
    let dateElicited :=
      if dateSessionElicited ≠ "" then (normalizeDate dateSessionElicited).getD ""
      else ""
    some
      { old_collection :=
          { title := titleRes.1
            type := "elicitation"
            description := ""
            speaker := speakers.head?
            elicitor := elicitor
            date_elicited := dateElicited
            lingsync_session_id := sessionId }
        aux_speakers := speakers
        aux_users := match elicitor with | some e => [e] | none => []
        docspecific := labelWarnings ++ titleRes.2 ++ speakerWarnings
        language := if language ≠ "" then some language else none }

/-! ## `process_lingsync_user` (lines 1244-1350) -/

/-- A LingSync user document (the attributes the mapper reads, all
possibly absent; the raw-dict unknown-attribute scan of lines 1282-1285
is not representable on a typed record and contributes nothing for
documents whose keys are all known). -/
structure LSUserDoc where
  username : Option String := none
  firstname : Option String := none
  lastname : Option String := none
  description : Option String := none
  researchInterest : Option String := none
  email : Option String := none
  affiliation : Option String := none
  deriving Repr, DecidableEq

/-- The result of mapping one user: `old_resource` is always `'users'`
(line 1291) and `old_value` is `None` exactly when the stripped username
is falsy (lines 1310, 1343-1346). -/
structure UserResult where
  old_resource : String
  old_value : Option OLDUser
  general : List String := []
  deriving Repr, DecidableEq

/-- `process_lingsync_user` (lines 1244-1350) on the restricted document. -/
def process_lingsync_user (doc : LSUserDoc) : UserResult :=
  let lsUsername := (my_strip doc.username).getD ""
  let lsFirstname := (my_strip doc.firstname).getD ""
  let lsLastname := (my_strip doc.lastname).getD ""
  let lsDescription := (my_strip doc.description).getD ""
  let lsResearchInterest := (my_strip doc.researchInterest).getD ""
  let lsEmail := (my_strip doc.email).getD ""
  let lsAffiliation := (my_strip doc.affiliation).getD ""
  if lsUsername ≠ "" then
    let firstName := if lsFirstname ≠ "" then lsFirstname else lsUsername
    let lastName := if lsLastname ≠ "" then lsLastname else lsUsername
    let emailRes : String × List String :=
      if lsEmail ≠ "" then (lsEmail, [])
      else (FAKE_EMAIL,
        ["Created a user (with username " ++ lsUsername ++ ") with a fake email: " ++
         FAKE_EMAIL ++ ". Please fix manually, i.e., from within the Dative/OLD interface."])
    let pageContent := pyStrip (String.intercalate "\n\n"
      ((if lsDescription ≠ "" then [lsDescription] else []) ++
       (if lsResearchInterest ≠ "" then
         ["Research interest: " ++ punctuate_period_safe lsResearchInterest] else []) ++
       (if lsAffiliation ≠ "" then
         ["Affiliation: " ++ punctuate_period_safe lsAffiliation] else [])))
    { old_resource := "users"
      old_value := some
        { username := lsUsername, first_name := firstName, last_name := lastName,
          email := emailRes.1, role := "administrator", page_content := pageContent }
      general := emailRes.2 }
  else
    { old_resource := "users", old_value := none }

/-! ## The Staging Store fold (`update_state`, lines 1016-1052) and the
orchestrator's per-kind passes (`lingsync2old`, lines 520-554) -/

/-- The Staging Store (`old_data`): one ordered list per destination
resource name.  `update_state` appends a converted document's primary
payload to the list named by `old_object['old_resource']` whenever that
*name* is truthy — the payload itself may be `None`, so the `users` list
holds `Option OLDUser` (see claim C10). -/
structure ConvState where
  users : List (Option OLDUser) := []
  speakers : List Speaker := []
  collections : List OldCollection := []
  languages : List String := []
  deriving Repr, DecidableEq

/-- Append-if-absent, the fold of lines 1027-1029 and 1034-1037 (`if val
not in old_data[key]: old_data[key].append(val)`). -/
def appendNew [DecidableEq α] (l : List α) (x : α) : List α :=
  if l.contains x then l else l ++ [x]

/-- `update_state` for a converted session (primary resource name
`'collections'`, auxiliary `speakers` and `users` lists). -/
def update_state_session (res : SessionResult) (st : ConvState) : ConvState :=
  let st := { st with collections := appendNew st.collections res.old_collection }
  let st := { st with speakers := res.aux_speakers.foldl appendNew st.speakers }
  { st with users := res.aux_users.foldl (fun l u => appendNew l (some u)) st.users }

/-- `update_state` for a converted user (primary resource name `'users'`,
which is truthy, so the primary payload is appended even when it is
`None` — lines 1024-1029). -/
def update_state_user (res : UserResult) (st : ConvState) : ConvState :=
  if res.old_resource ≠ "" then
    { st with users := appendNew st.users res.old_value }
  else st

/-- `get_collection_for_lingsync_doc` (lines 452-471) for session-shaped
documents: the `collection` attribute, or the mapping of `fieldDBtype`
when `collection` is falsy. -/
def get_collection_for_lingsync_doc (doc : LSSessionDoc) : Option String :=
  let c := doc.collection.getD ""
  if c ≠ "" then some c
  else
    match doc.fieldDBtype.getD "" with
    | "Session" => some "sessions"
    | "Corpus" => some "private_corpuses"
    | "Datum" => some "datums"
    | _ => none

/-- The session pass of the orchestrator (lines 520-528): for every row
classified as a session, convert it; a falsy conversion result is simply
skipped (`if old_object:`), a truthy one is folded into the Staging Store
and its language recorded.  The pass is total — this region of the source
has no abort path. -/
def sessionsPass (rows : List LSSessionDoc) (st : ConvState) : ConvState :=
  rows.foldl
    (fun st r =>
      if get_collection_for_lingsync_doc r = some "sessions" then
        match process_lingsync_session r with
        | some res =>
          let st := update_state_session res st
          match res.language with
          | some l => { st with languages := appendNew st.languages l }
          | none => st
        | none => st
      else st)
    st

/-! ## The Consolidator (`consolidate_resources`, lines 816-843, users part) -/

/-- The user-consolidation loop of lines 829-840: walk the staged users in
order; for each not-yet-processed user take every staged user with the
same username as one duplicate group, consolidating groups of two or
more.  The second argument is the full staged list, the third the
`processed` accumulator. -/
def consolidateUsersLoop : List OLDUser → List OLDUser → List OLDUser → List OLDUser × List String
  | [], _, _ => ([], [])
  | u :: rest, all, processed =>
    if processed.contains u then consolidateUsersLoop rest all processed
    else
      let dups := all.filter (fun v => v.username = u.username)
      let rec_ := consolidateUsersLoop rest all (processed ++ dups)
      if dups.length > 1 then
        let c := consolidate_users dups
        (c.1 :: rec_.1, c.2 ++ rec_.2)
      else (u :: rec_.1, rec_.2)

/-- The users part of `consolidate_resources` (lines 822-843): runs only
when more than one user is staged; the produced warnings are added to the
migration-wide `general` warning *set* — we return them as a list, whose
membership is what the claims consume. -/
def consolidate_resources_users (users : List OLDUser) : List OLDUser × List String :=
  if users.length > 1 then consolidateUsersLoop users users []
  else (users, [])

/-! ## The Relational Resolver / Uploader (`upload`, lines 2527-2621, and
the `create_old_*` functions)

The destination client is modelled by an oracle: a list of `Option Nat`
responses consumed one per issued create/update/delete request, where
`some id` stands for a response whose `assert r.get('id')` (or, for
application settings, the echoed-field assert of line 2516) passes with
the (necessarily truthy, hence non-zero) new identifier `id`, and `none`
for any response that fails it.  Each issued request is recorded as
`(operation, resource type, natural key)`; read-only GETs
(`c.get('users')` etc.) are modelled by passing the pre-existing
destination resources in as explicit arguments, and the interactive
overwrite prompts as explicit booleans.  `sys.exit` (and an uncaught
exception, e.g. the `IndexError` on a missing application-settings
payload) is the `fatal` constructor, which carries the requests issued up
to the abort. -/

/-- One HTTP mutation request: operation (`create`/`update`/`delete`),
resource type, and the payload's natural key. -/
abbrev Req := String × String × String

/-- Python truthiness of an id lookup or of `r.get('id')`. -/
def truthyId : Option Nat → Bool
  | some n => n ≠ 0
  | none => false

/-- Dict lookup in one Relational Map table. -/
def dget (m : List (String × Nat)) (k : String) : Option Nat :=
  (m.find? (fun p => p.1 = k)).map (·.2)

/-- Dict assignment in one Relational Map table. -/
def dset (m : List (String × Nat)) (k : String) (v : Nat) : List (String × Nat) :=
  (k, v) :: m.filter (fun p => p.1 ≠ k)

/-- The Relational Map (`relational_map`): per resource type, natural key
→ destination-assigned identifier.  `files` maps a datum id to the list
of created file ids. -/
structure RelMap where
  users : List (String × Nat) := []
  speakers : List (String × Nat) := []
  tags : List (String × Nat) := []
  files : List (String × List Nat) := []
  forms : List (String × Nat) := []
  corpora : List (String × Nat) := []
  collections : List (String × Nat) := []
  deriving Repr, DecidableEq

/-- A stage outcome: `ok` with the stage's value, the requests it issued
(in order) and the unconsumed oracle responses, or `fatal` with the
requests issued up to the abort. -/
inductive StageRes (α : Type) where
  | ok (val : α) (log : List Req) (responses : List (Option Nat))
  | fatal (log : List Req)
  deriving Repr, DecidableEq

/-- The requests a stage issued, whether it succeeded or aborted. -/
def StageRes.logOf : StageRes α → List Req
  | .ok _ l _ => l
  | .fatal l => l

/-- Sequencing of stages: a fatal stage aborts the run; logs concatenate. -/
def StageRes.andThen (x : StageRes α) (f : α → List (Option Nat) → StageRes β) : StageRes β :=
  match x with
  | .fatal l => .fatal l
  | .ok a l r =>
    match f a r with
    | .fatal l' => .fatal (l ++ l')
    | .ok b l' r' => .ok b (l ++ l') r'

/-- The plain creation loop shared by the users / speakers / tags /
corpora / collections create loops: issue one create per item (an item is
its log key paired with its Relational Map key), abort on a response with
no valid id (`assert r.get('id')` + `sys.exit`), record the id otherwise. -/
def createLoop (rtype : String) : List (String × String) → List (Option Nat) →
    List (String × Nat) → StageRes (List (String × Nat))
  | [], resp, rm => .ok rm [] resp
  | (info, key) :: rest, resp, rm =>
    let r := resp.headD none
    if truthyId r then
      match createLoop rtype rest resp.tail (dset rm key (r.getD 0)) with
      | .ok rm' l resp' => .ok rm' (("create", rtype, info) :: l) resp'
      | .fatal l => .fatal (("create", rtype, info) :: l)
    else .fatal [("create", rtype, info)]

/-- The update loop shared by the users / speakers update paths: issue one
update per already-existing matched resource; on a response that neither
carries an id nor is the benign "data were not new" error, abort; in all
success cases the Relational Map records the *existing* id (lines
3273-3287 / 3147-3161).  The benign-error and ok responses are both
modelled as a truthy response. -/
def updateLoop (rtype : String) : List (String × Nat) → List (Option Nat) →
    List (String × Nat) → StageRes (List (String × Nat))
  | [], resp, rm => .ok rm [] resp
  | (key, existingId) :: rest, resp, rm =>
    let r := resp.headD none
    if truthyId r then
      match updateLoop rtype rest resp.tail (dset rm key existingId) with
      | .ok rm' l resp' => .ok rm' (("update", rtype, key) :: l) resp'
      | .fatal l => .fatal (("update", rtype, key) :: l)
    else .fatal [("update", rtype, key)]

/-- `create_old_application_settings` (lines 2494-2522): one create whose
response must echo the submitted object language (modelled as a truthy
response); a missing staged payload is the uncaught `IndexError` of line
2500. -/
def create_old_application_settings (appsettings : List Unit)
    (resp : List (Option Nat)) : StageRes Unit :=
  match appsettings with
  | [] => .fatal []
  | _ :: _ =>
    let r := resp.headD none
    if truthyId r then .ok () [("create", "applicationsettings", "")] resp.tail
    else .fatal [("create", "applicationsettings", "")]

/-- Python's `\w` on a non-unicode pattern: `[a-zA-Z0-9_]`. -/
def isWordChar (c : Char) : Bool :=
  ('a' ≤ c ∧ c ≤ 'z') ∨ ('A' ≤ c ∧ c ≤ 'Z') ∨ ('0' ≤ c ∧ c ≤ '9') ∨ c = '_'

/-- Lines 3235-3255: make a LingSync username OLD-valid by dropping
non-word characters; `none` is the `sys.exit` when nothing is left.
Returns the (possibly rewritten) username and the Relational Map key
(the original username when a rewrite occurred, line 3263-3266). -/
def sanitizeUsername (u : String) : Option (String × String) :=
  if u.data.all isWordChar then some (u, u)
  else
    let nu := String.mk (u.data.filter isWordChar)
    if nu = "" then none else some (nu, u)

/-- The partition loop of `create_old_users` (lines 3206-3256): split the
staged users into updates of existing ones (or silent reuse of their ids)
and creations, sanitizing usernames.  No requests are issued here; the
`sys.exit` on an unsalvageable username is `none`. -/
def partitionUsers (users : List OLDUser) (existing : List (OLDUser × Nat))
    (overwrite : Bool) (rm : List (String × Nat)) :
    Option (List (String × String) × List (String × Nat) × List (String × Nat)) :=
  match users with
  | [] => some ([], [], rm)
  | u :: rest =>
    let existingUsernames := (existing.map (fun e => e.1.username)).filter (fun n => n ≠ "")
    if existingUsernames.contains u.username then
      match existing.find? (fun e => e.1.username = u.username) with
      | some e =>
        if overwrite then
          match partitionUsers rest existing overwrite rm with
          | some (cs, us, rm') => some (cs, (u.username, e.2) :: us, rm')
          | none => none
        else
          match partitionUsers rest existing overwrite (dset rm e.1.username e.2) with
          | some r => some r
          | none => none
      | none => none
    else
      match sanitizeUsername u.username with
      | some (nu, key) =>
        match partitionUsers rest existing overwrite rm with
        | some (cs, us, rm') => some ((nu, key) :: cs, us, rm')
        | none => none
      | none => none

/-- `create_old_users` (lines 3167-3291): skip when nothing is staged;
otherwise partition against the pre-existing destination users, then
issue the creates and the updates, aborting on any response without a
valid id. -/
def create_old_users (users : List OLDUser) (existing : List (OLDUser × Nat))
    (overwrite : Bool) (rm : RelMap) (resp : List (Option Nat)) : StageRes RelMap :=
  match users with
  | [] => .ok rm [] resp
  | _ :: _ =>
    match partitionUsers users existing overwrite rm.users with
    | none => .fatal []
    | some (toCreate, toUpdate, rmu) =>
      (createLoop "users" toCreate resp rmu).andThen fun rmu' resp' =>
        (updateLoop "users" toUpdate resp' rmu').andThen fun rmu'' resp'' =>
          .ok { rm with users := rmu'' } [] resp''

/-- The natural key of a speaker (`u'%s %s'`). -/
def speakerKey (s : Speaker) : String := s.first_name ++ " " ++ s.last_name

/-- The partition loop of `create_old_speakers` (lines 3114-3134): a
staged speaker matching an existing one by first+last name either reuses
the existing id or, under overwrite semantics, is updated when the merge
(dialect, truthy page_content) changed anything. -/
def partitionSpeakers (speakers : List Speaker) (existing : List (Speaker × Nat))
    (overwrite : Bool) (rm : List (String × Nat)) :
    List (String × String) × List (String × Nat) × List (String × Nat) :=
  match speakers with
  | [] => ([], [], rm)
  | s :: rest =>
    match existing.find? (fun e =>
        e.1.first_name = s.first_name ∧ e.1.last_name = s.last_name) with
    | some e =>
      if overwrite then
        let changed := s.dialect ≠ e.1.dialect ∨
          (s.page_content ≠ "" ∧ s.page_content ≠ e.1.page_content)
        let r := partitionSpeakers rest existing overwrite rm
        if changed then (r.1, (speakerKey e.1, e.2) :: r.2.1, r.2.2)
        else r
      else
        partitionSpeakers rest existing overwrite (dset rm (speakerKey e.1) e.2)
    | none =>
      let r := partitionSpeakers rest existing overwrite rm
      ((speakerKey s, speakerKey s) :: r.1, r.2.1, r.2.2)

/-- `create_old_speakers` (lines 3073-3164). -/
def create_old_speakers (speakers : List Speaker) (existing : List (Speaker × Nat))
    (overwrite : Bool) (rm : RelMap) (resp : List (Option Nat)) : StageRes RelMap :=
  match speakers with
  | [] => .ok rm [] resp
  | _ :: _ =>
    let p := partitionSpeakers speakers existing overwrite rm.speakers
    (createLoop "speakers" p.1 resp p.2.2).andThen fun rms resp' =>
      (updateLoop "speakers" p.2.1 resp' rms).andThen fun rms' resp'' =>
        .ok { rm with speakers := rms' } [] resp''

/-- `create_old_tags` (lines 3004-3070): first create the run's migration
tag (whose name `mtag` embeds the corpus name and the current UTC time,
passed here as a parameter), aborting when no id comes back; then create
every staged tag whose name is not among the pre-existing destination
tags, recording pre-existing ids for the others. -/
def create_old_tags (tags : List Tag) (existingTags : List (String × Nat))
    (mtag : String) (rm : RelMap) (resp : List (Option Nat)) : StageRes RelMap :=
  let r := resp.headD none
  if truthyId r then
    let rmt := dset rm.tags mtag (r.getD 0)
    let resp := resp.tail
    match tags with
    | [] => .ok { rm with tags := rmt } [("create", "tags", mtag)] resp
    | _ :: _ =>
      let rmt' := tags.foldl
        (fun m t =>
          match existingTags.find? (fun e => e.1 = t.name) with
          | some e => dset m e.1 e.2
          | none => m)
        rmt
      let toCreate := (tags.filter
          (fun t => ¬ (existingTags.map (·.1)).contains t.name)).map
        (fun t => (t.name, t.name))
      match createLoop "tags" toCreate resp rmt' with
      | .ok rmt'' l resp' => .ok { rm with tags := rmt'' } (("create", "tags", mtag) :: l) resp'
      | .fatal l => .fatal (("create", "tags", mtag) :: l)
  else .fatal [("create", "tags", mtag)]

/-- A staged file payload as the uploader reads it: its natural key (the
originating datum's id), whether a truthy `__local_file_path` naming an
existing local file is present (the two filesystem checks of lines
2949-2955, made explicit as input data), and its on-disk size. -/
structure StagedFile where
  lingsync_datum_id : String := ""
  localPresent : Bool := false
  size : Nat := 0
  deriving Repr, DecidableEq

/-- Dict ops for the datum-id → file-ids table. -/
def dgetL (m : List (String × List Nat)) (k : String) : Option (List Nat) :=
  (m.find? (fun p => p.1 = k)).map (·.2)

def dsetL (m : List (String × List Nat)) (k : String) (v : List Nat) :
    List (String × List Nat) :=
  (k, v) :: m.filter (fun p => p.1 ≠ k)

/-- The creation loop of `create_old_files` (lines 2947-2982): skip files
without usable local data (`continue`) and files above the 20MB
multipart threshold (`pass`); otherwise create, aborting on a response
without a valid id, and append the new id to the datum's file-id list. -/
def filesLoop : List StagedFile → List (Option Nat) → List (String × List Nat) →
    StageRes (List (String × List Nat))
  | [], resp, rm => .ok rm [] resp
  | f :: rest, resp, rm =>
    if ¬ f.localPresent then filesLoop rest resp rm
    else if f.size > 20971520 then filesLoop rest resp rm
    else
      let r := resp.headD none
      if truthyId r then
        let prev := (dgetL rm f.lingsync_datum_id).getD []
        match filesLoop rest resp.tail (dsetL rm f.lingsync_datum_id (prev ++ [r.getD 0])) with
        | .ok rm' l resp' => .ok rm' (("create", "files", f.lingsync_datum_id) :: l) resp'
        | .fatal l => .fatal (("create", "files", f.lingsync_datum_id) :: l)
      else .fatal [("create", "files", f.lingsync_datum_id)]

/-- `create_old_files` (lines 2934-2985). -/
def create_old_files (files : List StagedFile) (rm : RelMap)
    (resp : List (Option Nat)) : StageRes RelMap :=
  match files with
  | [] => .ok rm [] resp
  | _ :: _ =>
    (filesLoop files resp rm.files).andThen fun rmf resp' =>
      .ok { rm with files := rmf } [] resp'

/-- The creation loop of `create_old_forms` (lines 2843-2928): per staged
form, resolve its references (not logged — only mutation requests are),
create it; on a valid id, record it in the Relational Map under the
datum id *unless* the form is flagged deleted (lines 2908-2911), and for
a flagged form immediately issue a delete of the newly assigned id,
aborting when the delete response carries no id (lines 2917-2928). -/
def formsLoop : List OldForm → List (Option Nat) → List (String × Nat) →
    StageRes (List (String × Nat))
  | [], resp, rm => .ok rm [] resp
  | f :: rest, resp, rm =>
    let r := resp.headD none
    let creq : Req := ("create", "forms", f.lingsync_datum_id)
    if truthyId r then
      let newId := r.getD 0
      if f.lingsync_deleted then
        let rd := resp.tail.headD none
        let dreq : Req := ("delete", "forms", toString newId)
        if truthyId rd then
          match formsLoop rest resp.tail.tail rm with
          | .ok rm' l resp' => .ok rm' (creq :: dreq :: l) resp'
          | .fatal l => .fatal (creq :: dreq :: l)
        else .fatal [creq, dreq]
      else
        match formsLoop rest resp.tail (dset rm f.lingsync_datum_id newId) with
        | .ok rm' l resp' => .ok rm' (creq :: l) resp'
        | .fatal l => .fatal (creq :: l)
    else .fatal [creq]

/-- `create_old_forms` (lines 2820-2931): skip when nothing is staged;
abort when the migration tag's id cannot be resolved (lines 2835-2840);
otherwise run the creation loop. -/
def create_old_forms (forms : List OldForm) (mtag : String) (rm : RelMap)
    (resp : List (Option Nat)) : StageRes RelMap :=
  match forms with
  | [] => .ok rm [] resp
  | _ :: _ =>
    if ¬ truthyId (dget rm.tags mtag) then .fatal []
    else
      (formsLoop forms resp rm.forms).andThen fun rmf resp' =>
        .ok { rm with forms := rmf } [] resp'

/-- A staged corpus payload as the uploader reads it. -/
structure StagedCorpus where
  name : String := ""
  lingsync_datalist_id : String := ""
  datum_ids : List String := []
  deriving Repr, DecidableEq

/-- `create_old_corpora` (lines 2750-2817): abort without the migration
tag id; per corpus, resolve its datum ids to form ids (unresolved ones
are dropped with a printed warning), create, abort on an invalid id. -/
def create_old_corpora (corpora : List StagedCorpus) (mtag : String) (rm : RelMap)
    (resp : List (Option Nat)) : StageRes RelMap :=
  match corpora with
  | [] => .ok rm [] resp
  | _ :: _ =>
    if ¬ truthyId (dget rm.tags mtag) then .fatal []
    else
      (createLoop "corpora"
          (corpora.map (fun c => (c.lingsync_datalist_id, c.lingsync_datalist_id)))
          resp rm.corpora).andThen fun rmc resp' =>
        .ok { rm with corpora := rmc } [] resp'

/-- Python `u'<' u'>'` comparison of unicode strings: code-point
lexicographic order (strict). -/
def pyStrLt : List Char → List Char → Bool
  | [], [] => false
  | [], _ :: _ => true
  | _ :: _, [] => false
  | a :: as_, b :: bs =>
    if a.toNat < b.toNat then true
    else if a.toNat = b.toNat then pyStrLt as_ bs
    else false

/-- Python `<=` on `(unicode, int)` pairs, the order used by
`sorted(contents)` at line 2730. -/
def pyPairLe (a b : String × Nat) : Bool :=
  pyStrLt a.1.data b.1.data ∨ (a.1 = b.1 ∧ a.2 ≤ b.2)

/-- Lines 2712-2725: the `(date_entered, form id)` pairs of a collection:
every non-deleted staged form whose source session id matches the
collection's and whose datum id resolves through the Relational Map, in
staging order. -/
def collectionContents (forms : List OldForm) (rmForms : List (String × Nat))
    (sessionId : String) : List (String × Nat) :=
  forms.filterMap (fun f =>
    if ¬ f.lingsync_deleted ∧ f.lingsync_session_id = some sessionId then
      match dget rmForms f.lingsync_datum_id with
      | some n => if n ≠ 0 then some (f.date_entered, n) else none
      | none => none
    else none)

/-- Lines 2729-2730: sort the pairs with Python `sorted` and render
`u'\n'.join([u'form[%d]' % t[1] for t in sorted(contents)])`.  The pair
order `pyPairLe` is total and antisymmetric (pairs related both ways are
equal), so the sorted permutation is unique and every correct sort —
CPython's stable Timsort included — produces the same list; we use
insertion sort, which the kernel can evaluate. -/
def contentsValue (forms : List OldForm) (rmForms : List (String × Nat))
    (sessionId : String) : String :=
  String.intercalate "\n"
    ((List.insertionSort (fun a b => pyPairLe a b = true)
        (collectionContents forms rmForms sessionId)).map
      (fun t => "form[" ++ toString t.2 ++ "]"))

/-- The per-collection payload mutation of lines 2666-2730: the
collection as sent to the destination carries the rebuilt `contents`
value (reference resolution of tags/speaker/elicitor into ids is also
performed there; the `contents` rebuild is the part the claims consume). -/
def collectionPayload (forms : List OldForm) (rmForms : List (String × Nat))
    (c : OldCollection) : OldCollection :=
  { c with contents := contentsValue forms rmForms c.lingsync_session_id }

/-- `create_old_collections` (lines 2646-2747): abort without the
migration tag id; per collection, rebuild its payload (the payload
travels in the create request and is not separately logged — the log
carries the session id as the request's natural key), create, abort on
an invalid id. -/
def create_old_collections (collections : List OldCollection) (forms : List OldForm)
    (mtag : String) (rm : RelMap) (resp : List (Option Nat)) : StageRes RelMap :=
  match collections with
  | [] => .ok rm [] resp
  | _ :: _ =>
    if ¬ truthyId (dget rm.tags mtag) then .fatal []
    else
      (createLoop "collections"
          ((collections.map (collectionPayload forms rm.forms)).map
            (fun c => (c.lingsync_session_id, c.lingsync_session_id)))
          resp rm.collections).andThen fun rmc resp' =>
        .ok { rm with collections := rmc } [] resp'

/-- Everything the upload step consumes: the Staging Store as read back
from the conversion artifact, the pre-existing destination resources
(the GETs), and the operator's overwrite answers. -/
structure UploadInput where
  applicationsettings : List Unit := []
  users : List OLDUser := []
  speakers : List Speaker := []
  tags : List Tag := []
  files : List StagedFile := []
  forms : List OldForm := []
  corpora : List StagedCorpus := []
  collections : List OldCollection := []
  existingUsers : List (OLDUser × Nat) := []
  existingSpeakers : List (Speaker × Nat) := []
  existingTags : List (String × Nat) := []
  userOverwrite : Bool := false
  speakerOverwrite : Bool := false
  mtag : String := "migration tag"

/-- The first four stages of `upload` (lines 2567-2573): application
settings, users, speakers, tags. -/
def uploadThroughTags (inp : UploadInput) (resp : List (Option Nat)) : StageRes RelMap :=
  (create_old_application_settings inp.applicationsettings resp).andThen fun _ r1 =>
    (create_old_users inp.users inp.existingUsers inp.userOverwrite {} r1).andThen fun rm1 r2 =>
      (create_old_speakers inp.speakers inp.existingSpeakers inp.speakerOverwrite rm1 r2).andThen fun rm2 r3 =>
        create_old_tags inp.tags inp.existingTags inp.mtag rm2 r3

/-- `upload` (lines 2527-2581): the eight stages in dependency order,
each aborting the whole run on failure. -/
def upload (inp : UploadInput) (resp : List (Option Nat)) : StageRes RelMap :=
  (uploadThroughTags inp resp).andThen fun rm3 r4 =>
    (create_old_files inp.files rm3 r4).andThen fun rm4 r5 =>
      (create_old_forms inp.forms inp.mtag rm4 r5).andThen fun rm5 r6 =>
        (create_old_corpora inp.corpora inp.mtag rm5 r6).andThen fun rm6 r7 =>
          create_old_collections inp.collections inp.forms inp.mtag rm6 r7

/-! ## Helper lemmas -/

theorem charEqOfToNatEq {a b : Char} (h : a.toNat = b.toNat) : a = b :=
  Char.eq_of_val_eq (UInt32.ext h)

theorem pyStrLt_cons (x y : Char) (xs ys : List Char) :
    pyStrLt (x :: xs) (y :: ys) = true ↔
      (x.toNat < y.toNat ∨ (x.toNat = y.toNat ∧ pyStrLt xs ys = true)) := by
  simp only [pyStrLt]
  split_ifs with h1 h2 <;> simp_all

theorem pyStrLt_trans : ∀ (a b c : List Char),
    pyStrLt a b = true → pyStrLt b c = true → pyStrLt a c = true := by
  intro a
  induction a with
  | nil =>
    intro b c h1 h2
    cases b with
    | nil => simp [pyStrLt] at h1
    | cons y ys =>
      cases c with
      | nil => simp [pyStrLt] at h2
      | cons z zs => simp [pyStrLt]
  | cons x xs ih =>
    intro b c h1 h2
    cases b with
    | nil => simp [pyStrLt] at h1
    | cons y ys =>
      cases c with
      | nil => simp [pyStrLt] at h2
      | cons z zs =>
        rw [pyStrLt_cons] at h1 h2 ⊢
        rcases h1 with h1 | ⟨h1e, h1r⟩
        · rcases h2 with h2 | ⟨h2e, h2r⟩
          · exact Or.inl (Nat.lt_trans h1 h2)
          · exact Or.inl (h2e ▸ h1)
        · rcases h2 with h2 | ⟨h2e, h2r⟩
          · exact Or.inl (h1e ▸ h2)
          · exact Or.inr ⟨h1e.trans h2e, ih ys zs h1r h2r⟩

theorem pyStrLt_trichotomy : ∀ (a b : List Char),
    pyStrLt a b = true ∨ a = b ∨ pyStrLt b a = true := by
  intro a
  induction a with
  | nil => intro b; cases b <;> simp [pyStrLt]
  | cons x xs ih =>
    intro b
    cases b with
    | nil => simp [pyStrLt]
    | cons y ys =>
      rcases Nat.lt_trichotomy x.toNat y.toNat with hxy | hxy | hxy
      · exact Or.inl ((pyStrLt_cons _ _ _ _).mpr (Or.inl hxy))
      · rcases ih ys with h | h | h
        · exact Or.inl ((pyStrLt_cons _ _ _ _).mpr (Or.inr ⟨hxy, h⟩))
        · exact Or.inr (Or.inl (by rw [charEqOfToNatEq hxy, h]))
        · exact Or.inr (Or.inr ((pyStrLt_cons _ _ _ _).mpr (Or.inr ⟨hxy.symm, h⟩)))
      · exact Or.inr (Or.inr ((pyStrLt_cons _ _ _ _).mpr (Or.inl hxy)))

theorem pyPairLe_trans (a b c : String × Nat) :
    pyPairLe a b = true → pyPairLe b c = true → pyPairLe a c = true := by
  simp only [pyPairLe, Bool.or_eq_true, decide_eq_true_eq, Bool.and_eq_true]
  intro h1 h2
  rcases h1 with h1 | ⟨h1e, h1n⟩
  · rcases h2 with h2 | ⟨h2e, h2n⟩
    · exact Or.inl (pyStrLt_trans _ _ _ h1 h2)
    · exact Or.inl (h2e ▸ h1)
  · rcases h2 with h2 | ⟨h2e, h2n⟩
    · exact Or.inl (h1e ▸ h2)
    · exact Or.inr ⟨h1e.trans h2e, le_trans h1n h2n⟩

theorem pyPairLe_total (a b : String × Nat) :
    (pyPairLe a b || pyPairLe b a) = true := by
  simp only [pyPairLe, Bool.or_eq_true, decide_eq_true_eq, Bool.and_eq_true]
  rcases pyStrLt_trichotomy a.1.data b.1.data with h | h | h
  · exact Or.inl (Or.inl h)
  · have he : a.1 = b.1 := String.ext h
    rcases Nat.le_total a.2 b.2 with hn | hn
    · exact Or.inl (Or.inr ⟨he, by simpa using hn⟩)
    · exact Or.inr (Or.inr ⟨he.symm, by simpa using hn⟩)
  · exact Or.inr (Or.inl h)

theorem pps_data_contained (s : String) : s.data <:+: (punctuate_period_safe s).data := by
  unfold punctuate_period_safe
  split
  · split_ifs
    · exact List.infix_rfl
    · exact ⟨[], ['.'], by simp [String.data_append]⟩
  · exact ⟨[], ['.'], by simp [String.data_append]⟩

theorem andThen_logOf {α β : Type} (x : StageRes α)
    (f : α → List (Option Nat) → StageRes β) (P : Req → Prop)
    (hx : ∀ r ∈ x.logOf, P r)
    (hf : ∀ a resp, ∀ r ∈ (f a resp).logOf, P r) :
    ∀ r ∈ (x.andThen f).logOf, P r := by
  cases x with
  | fatal l => simpa [StageRes.andThen, StageRes.logOf] using hx
  | ok a l resp =>
    have hfl := hf a resp
    cases hfa : f a resp with
    | fatal l' =>
      rw [hfa] at hfl
      simp only [StageRes.andThen, hfa, StageRes.logOf, List.mem_append] at *
      rintro r (h | h)
      · exact hx r h
      · exact hfl r h
    | ok b l' resp' =>
      rw [hfa] at hfl
      simp only [StageRes.andThen, hfa, StageRes.logOf, List.mem_append] at *
      rintro r (h | h)
      · exact hx r h
      · exact hfl r h

theorem createLoop_logOf (rt : String) :
    ∀ (items : List (String × String)) (resp : List (Option Nat))
      (rm : List (String × Nat)),
      ∀ r ∈ (createLoop rt items resp rm).logOf, r.2.1 = rt := by
  intro items
  induction items with
  | nil => intro resp rm r hr; simp [createLoop, StageRes.logOf] at hr
  | cons it rest ih =>
    intro resp rm r hr
    obtain ⟨info, key⟩ := it
    simp only [createLoop] at hr
    by_cases ht : truthyId (resp.headD none)
    · rw [if_pos ht] at hr
      cases hcl : createLoop rt rest resp.tail (dset rm key ((resp.headD none).getD 0)) with
      | ok rm' l resp' =>
        rw [hcl] at hr
        simp only [StageRes.logOf, List.mem_cons] at hr
        rcases hr with hr | hr
        · rw [hr]
        · have := ih resp.tail (dset rm key ((resp.headD none).getD 0)) r
          rw [hcl] at this
          exact this hr
      | fatal l =>
        rw [hcl] at hr
        simp only [StageRes.logOf, List.mem_cons] at hr
        rcases hr with hr | hr
        · rw [hr]
        · have := ih resp.tail (dset rm key ((resp.headD none).getD 0)) r
          rw [hcl] at this
          exact this hr
    · rw [if_neg ht] at hr
      simp only [StageRes.logOf, List.mem_singleton] at hr
      rw [hr]

theorem updateLoop_logOf (rt : String) :
    ∀ (items : List (String × Nat)) (resp : List (Option Nat))
      (rm : List (String × Nat)),
      ∀ r ∈ (updateLoop rt items resp rm).logOf, r.2.1 = rt := by
  intro items
  induction items with
  | nil => intro resp rm r hr; simp [updateLoop, StageRes.logOf] at hr
  | cons it rest ih =>
    intro resp rm r hr
    obtain ⟨key, eid⟩ := it
    simp only [updateLoop] at hr
    by_cases ht : truthyId (resp.headD none)
    · rw [if_pos ht] at hr
      cases hcl : updateLoop rt rest resp.tail (dset rm key eid) with
      | ok rm' l resp' =>
        rw [hcl] at hr
        simp only [StageRes.logOf, List.mem_cons] at hr
        rcases hr with hr | hr
        · rw [hr]
        · have := ih resp.tail (dset rm key eid) r
          rw [hcl] at this
          exact this hr
      | fatal l =>
        rw [hcl] at hr
        simp only [StageRes.logOf, List.mem_cons] at hr
        rcases hr with hr | hr
        · rw [hr]
        · have := ih resp.tail (dset rm key eid) r
          rw [hcl] at this
          exact this hr
    · rw [if_neg ht] at hr
      simp only [StageRes.logOf, List.mem_singleton] at hr
      rw [hr]

theorem create_old_application_settings_logOf (a : List Unit) (resp : List (Option Nat)) :
    ∀ r ∈ (create_old_application_settings a resp).logOf, r.2.1 = "applicationsettings" := by
  intro r hr
  cases a with
  | nil => simp [create_old_application_settings, StageRes.logOf] at hr
  | cons x xs =>
    simp only [create_old_application_settings] at hr
    by_cases ht : truthyId (resp.headD none)
    · rw [if_pos ht] at hr
      simp only [StageRes.logOf, List.mem_singleton] at hr
      rw [hr]
    · rw [if_neg ht] at hr
      simp only [StageRes.logOf, List.mem_singleton] at hr
      rw [hr]

theorem create_old_users_logOf (users : List OLDUser) (existing : List (OLDUser × Nat))
    (ov : Bool) (rm : RelMap) (resp : List (Option Nat)) :
    ∀ r ∈ (create_old_users users existing ov rm resp).logOf, r.2.1 = "users" := by
  intro r hr
  cases users with
  | nil => simp [create_old_users, StageRes.logOf] at hr
  | cons u rest =>
    simp only [create_old_users] at hr
    cases hp : partitionUsers (u :: rest) existing ov rm.users with
    | none => rw [hp] at hr; simp [StageRes.logOf] at hr
    | some p =>
      rw [hp] at hr
      obtain ⟨cs, us, rmu⟩ := p
      revert hr
      refine andThen_logOf _ _ _ (createLoop_logOf "users" cs resp rmu) ?_ r
      intro a resp'
      refine andThen_logOf _ _ _ (updateLoop_logOf "users" us resp' a) ?_
      intro a' resp''
      simp [StageRes.logOf]

theorem create_old_speakers_logOf (speakers : List Speaker)
    (existing : List (Speaker × Nat)) (ov : Bool) (rm : RelMap)
    (resp : List (Option Nat)) :
    ∀ r ∈ (create_old_speakers speakers existing ov rm resp).logOf, r.2.1 = "speakers" := by
  intro r hr
  cases speakers with
  | nil => simp [create_old_speakers, StageRes.logOf] at hr
  | cons s rest =>
    simp only [create_old_speakers] at hr
    revert hr
    refine andThen_logOf _ _ _
      (createLoop_logOf "speakers" _ resp
        (partitionSpeakers (s :: rest) existing ov rm.speakers).2.2) ?_ r
    intro a resp'
    refine andThen_logOf _ _ _ (updateLoop_logOf "speakers" _ resp' a) ?_
    intro a' resp''
    simp [StageRes.logOf]

theorem create_old_tags_logOf (tags : List Tag) (existingTags : List (String × Nat))
    (mtag : String) (rm : RelMap) (resp : List (Option Nat)) :
    ∀ r ∈ (create_old_tags tags existingTags mtag rm resp).logOf, r.2.1 = "tags" := by
  intro r hr
  simp only [create_old_tags] at hr
  by_cases ht : truthyId (resp.headD none)
  · rw [if_pos ht] at hr
    cases tags with
    | nil => simp only [StageRes.logOf, List.mem_singleton] at hr; rw [hr]
    | cons t rest =>
      set toCreate := (((t :: rest).filter
          (fun t => ¬ (existingTags.map (·.1)).contains t.name)).map
        (fun t => (t.name, t.name))) with htc
      set rmfold := ((t :: rest).foldl
          (fun m t =>
            match existingTags.find? (fun e => e.1 = t.name) with
            | some e => dset m e.1 e.2
            | none => m)
          (dset rm.tags mtag ((resp.headD none).getD 0))) with hrf
      cases hcl : createLoop "tags" toCreate resp.tail rmfold with
      | ok rmt l resp' =>
        rw [hcl] at hr
        simp only [StageRes.logOf, List.mem_cons] at hr
        rcases hr with hr | hr
        · rw [hr]
        · have := createLoop_logOf "tags" toCreate resp.tail rmfold r
          rw [hcl] at this
          exact this hr
      | fatal l =>
        rw [hcl] at hr
        simp only [StageRes.logOf, List.mem_cons] at hr
        rcases hr with hr | hr
        · rw [hr]
        · have := createLoop_logOf "tags" toCreate resp.tail rmfold r
          rw [hcl] at this
          exact this hr
  · rw [if_neg ht] at hr
    simp only [StageRes.logOf, List.mem_singleton] at hr
    rw [hr]

theorem uploadThroughTags_logOf (inp : UploadInput) (resp : List (Option Nat)) :
    ∀ r ∈ (uploadThroughTags inp resp).logOf,
      r.2.1 = "applicationsettings" ∨ r.2.1 = "users" ∨ r.2.1 = "speakers" ∨ r.2.1 = "tags" := by
  refine andThen_logOf _ _ _
    (fun r hr => Or.inl (create_old_application_settings_logOf _ resp r hr)) ?_
  intro a r1
  refine andThen_logOf _ _ _
    (fun r hr => Or.inr (Or.inl (create_old_users_logOf _ _ _ _ r1 r hr))) ?_
  intro rm1 r2
  refine andThen_logOf _ _ _
    (fun r hr => Or.inr (Or.inr (Or.inl (create_old_speakers_logOf _ _ _ _ r2 r hr)))) ?_
  intro rm2 r3
  exact fun r hr => Or.inr (Or.inr (Or.inr (create_old_tags_logOf _ _ _ _ r3 r hr)))

/-! ## Claim theorems -/

set_option maxRecDepth 8192

/-- Claim C1, counterexample: the claim says consolidation assigns each
non-key field the first non-empty value in the order the duplicates first
appeared.  For two staged duplicate users with affiliations `"B"`, `"A"`
(in that arrival order) the first non-empty value in arrival order is
`"B"`, but the consolidated user's affiliation is `"A"`: the source picks
`list(set(...))[0]`, whose order is the hash-table order of CPython's
`set`, not arrival order. -/
theorem C1_first_wins_counterexample :
    (consolidate_resources_users
        [{ username := "u", affiliation := "B" },
         { username := "u", affiliation := "A" }]).1.map (·.affiliation) = ["A"] ∧
    ((["B", "A"].filter (fun v => v ≠ "")).headD "") = "B" ∧ ("A" : String) ≠ "B" := by
  decide

/-- Claim C1, amended: for every group of duplicate user payloads sharing
a username, consolidation assigns each non-key field the head of the
CPython set-iteration order (hash-table order, not arrival order) of the
distinct non-empty values across the duplicates, and when more than one
distinct non-empty value was seen it emits a warning listing every
remaining (discarded) value of that order; on the spec's example
(affiliations `"A"`, `""`, `"B"` in arrival order) the consolidated
affiliation happens to be `"A"` and the warning lists `"B"`. -/
theorem C1_consolidation_amended :
    (∀ dups : List OLDUser,
      (consolidate_users dups).1.affiliation
          = (pySetList ((dups.map (·.affiliation)).filter (fun v => v ≠ ""))).headD "" ∧
      ((pySetList ((dups.map (·.affiliation)).filter (fun v => v ≠ ""))).length > 1 →
        userAttrWarning
            ((pySetList ((dups.map (·.affiliation)).filter (fun v => v ≠ ""))).headD "")
            "affiliation"
            ((pySetList ((dups.map (·.affiliation)).filter (fun v => v ≠ ""))).tail)
          ∈ (consolidate_users dups).2)) ∧
    ((consolidate_resources_users
        [{ username := "u", affiliation := "A" }, { username := "u" },
         { username := "u", affiliation := "B" }]).1.map (·.affiliation) = ["A"] ∧
     userAttrWarning "A" "affiliation" ["B"] ∈
       (consolidate_resources_users
         [{ username := "u", affiliation := "A" }, { username := "u" },
          { username := "u", affiliation := "B" }]).2) := by
  refine ⟨fun dups => ⟨?_, ?_⟩, by decide, by decide⟩
  · simp only [consolidate_users, consolidateUserAttr]
    split_ifs <;> rfl
  · intro h
    simp only [consolidate_users, consolidateUserAttr]
    rw [if_pos h]
    simp

/-- Witness for C1: the amended theorem applied to the duplicate pair of
the counterexample. -/
theorem C1_consolidation_amended_witness :
    userAttrWarning "A" "affiliation" ["B"] ∈
      (consolidate_users
        [{ username := "u", affiliation := "B" },
         { username := "u", affiliation := "A" }]).2 :=
  (C1_consolidation_amended.1
    [{ username := "u", affiliation := "B" },
     { username := "u", affiliation := "A" }]).2 (by decide)

/-- Claim C2, counterexample: a session document with neither
`sessionFields` nor `fields` is not fatal — `process_lingsync_session`
returns `None` and the orchestrator's session pass simply skips it and
keeps converting the remaining documents (here the following session is
still staged). -/
theorem C2_missing_fields_counterexample :
    process_lingsync_session { sid := "s0", collection := some "sessions" } = none ∧
    sessionsPass
        [{ sid := "s0", collection := some "sessions" },
         { sid := "s1", collection := some "sessions",
           sessionFields := some [⟨"goal", "G"⟩] }] {}
      = sessionsPass
          [{ sid := "s1", collection := some "sessions",
             sessionFields := some [⟨"goal", "G"⟩] }] {} ∧
    (sessionsPass
        [{ sid := "s0", collection := some "sessions" },
         { sid := "s1", collection := some "sessions",
           sessionFields := some [⟨"goal", "G"⟩] }] {}).collections.length = 1 := by
  decide

/-- Claim C2, amended: converting a session document that has neither a
truthy `sessionFields` nor a truthy `fields` attribute is not fatal: the
mapper reports the offending document (an `ERROR` print) and returns a
null result, the orchestrator stages nothing for it, and the conversion
run continues with the remaining documents. -/
theorem C2_missing_fields_amended :
    ∀ (doc : LSSessionDoc) (rows : List LSSessionDoc) (st : ConvState),
      (doc.sessionFields.getD []).isEmpty → (doc.fields.getD []).isEmpty →
      process_lingsync_session doc = none ∧
      sessionsPass (doc :: rows) st = sessionsPass rows st := by
  intro doc rows st h1 h2
  have hp : process_lingsync_session doc = none := by
    simp [process_lingsync_session, h1, h2]
  refine ⟨hp, ?_⟩
  simp only [sessionsPass, List.foldl_cons]
  congr 1
  by_cases hg : get_collection_for_lingsync_doc doc = some "sessions"
  · simp [hg, hp]
  · simp [hg]

/-- Witness for C2: the amended theorem at a concrete fieldless session. -/
theorem C2_missing_fields_amended_witness :
    process_lingsync_session { sid := "s0", collection := some "sessions" } = none ∧
    sessionsPass [{ sid := "s0", collection := some "sessions" }] {}
      = sessionsPass [] ({} : ConvState) :=
  C2_missing_fields_amended { sid := "s0", collection := some "sessions" } [] {}
    (by decide) (by decide)

/-- Claim C3: if the upload run dies in or before the tags stage — in
particular when a tag-creation request (the migration tag's or a staged
tag's) does not return a valid new identifier, which aborts immediately
with no retry (second conjunct: the failed create is the only request the
stage issues) — then the whole upload is fatal and no form, corpus, or
collection creation request is ever issued. -/
theorem C3_upload_abort :
    (∀ (inp : UploadInput) (resp : List (Option Nat)),
      (∃ l, uploadThroughTags inp resp = .fatal l) →
      ∃ L, upload inp resp = .fatal L ∧
        ∀ r ∈ L, r.2.1 ≠ "forms" ∧ r.2.1 ≠ "corpora" ∧ r.2.1 ≠ "collections") ∧
    (∀ (tags : List Tag) (existingTags : List (String × Nat)) (mtag : String)
       (rm : RelMap) (resp : List (Option Nat)),
      ¬ truthyId (resp.headD none) →
      create_old_tags tags existingTags mtag rm resp = .fatal [("create", "tags", mtag)]) := by
  constructor
  · intro inp resp h
    obtain ⟨l, hl⟩ := h
    refine ⟨l, ?_, ?_⟩
    · simp [upload, hl, StageRes.andThen]
    · intro r hr
      have hmem : r ∈ (uploadThroughTags inp resp).logOf := by
        rw [hl]; exact hr
      rcases uploadThroughTags_logOf inp resp r hmem with h | h | h | h <;>
        (rw [h]; exact ⟨by decide, by decide, by decide⟩)
  · intro tags existingTags mtag rm resp ht
    simp only [create_old_tags]
    rw [if_neg ht]

/-- Witness for C3: a run whose migration tag is created but whose staged
tag gets no identifier back; the upload aborts after three requests, none
of which targets forms, corpora or collections. -/
theorem C3_upload_abort_witness :
    ∃ L, upload
        { applicationsettings := [()], tags := [{ name := "t" }],
          forms := [{ lingsync_datum_id := "dx" }], mtag := "MT" }
        [some 1, some 2, none]
      = .fatal L ∧
      ∀ r ∈ L, r.2.1 ≠ "forms" ∧ r.2.1 ≠ "corpora" ∧ r.2.1 ≠ "collections" :=
  C3_upload_abort.1
    { applicationsettings := [()], tags := [{ name := "t" }],
      forms := [{ lingsync_datum_id := "dx" }], mtag := "MT" }
    [some 1, some 2, none]
    ⟨[("create", "applicationsettings", ""), ("create", "tags", "MT"),
      ("create", "tags", "t")], by decide⟩

/-- Claim C4: date normalization.  `"2020-03-04"` and `"03/04/2020"` both
normalize to `"03/04/2020"` (step level, and end to end through the datum
mapper); an unparseable non-empty date leaves the structured field empty
and, for a datum, appends exactly one docspecific warning, while for a
session it leaves the field empty with no warning at all (the concrete
session below converts with `date_elicited = ""` and an empty warning
list). -/
theorem C4_date_normalization :
    (∀ datumId : String,
      datumDateStep "2020-03-04" datumId = (some "03/04/2020", false, []) ∧
      datumDateStep "03/04/2020" datumId = (some "03/04/2020", false, [])) ∧
    (∀ s datumId : String, s ≠ "" → normalizeDate s = none →
      (datumDateStep s datumId).1 = none ∧ (datumDateStep s datumId).2.2.length = 1) ∧
    ((process_lingsync_datum
        { did := "d1",
          session := some { sid := "s", sessionFields := some [⟨"dateElicited", "2020-03-04"⟩] } }
        "corp").old_form.date_elicited = "03/04/2020" ∧
     (process_lingsync_datum
        { did := "d1",
          session := some { sid := "s", sessionFields := some [⟨"dateElicited", "03/04/2020"⟩] } }
        "corp").old_form.date_elicited = "03/04/2020" ∧
     (process_lingsync_datum
        { did := "d1",
          session := some { sid := "s", sessionFields := some [⟨"dateElicited", "not-a-date"⟩] } }
        "corp").old_form.date_elicited = "" ∧
     (process_lingsync_datum
        { did := "d1",
          session := some { sid := "s", sessionFields := some [⟨"dateElicited", "not-a-date"⟩] } }
        "corp").docspecific
       = ["Unable to parse not-a-date to an OLD-compatible date in MM/DD/YYYY format for datum d1."] ∧
     (process_lingsync_session
        { sid := "s1",
          sessionFields := some [⟨"goal", "Study"⟩, ⟨"dateElicited", "not-a-date"⟩] }).map
       (fun r => (r.old_collection.date_elicited, r.docspecific)) = some ("", [])) := by
  refine ⟨fun datumId => ⟨rfl, rfl⟩, ?_, by decide, by decide, by decide, by decide, by decide⟩
  intro s datumId h1 h2
  simp [datumDateStep, h1, h2]

/-- Witness for C4: the unparseable-date conjunct at `"not-a-date"`. -/
theorem C4_date_normalization_witness :
    (datumDateStep "not-a-date" "d1").1 = none ∧
    (datumDateStep "not-a-date" "d1").2.2.length = 1 :=
  C4_date_normalization.2.1 "not-a-date" "d1" (by decide) (by decide)

/-- Claim C5, the failing input: for a `syntacticTreeLatex` value of 1024
`'a'`s (longer than the destination `syntax` field's 1023-character
maximum), the source's own comment says "Max 1023 chars" and its warning
says the value "will be truncated", but the over-long branch slices
`[:255]`: the converted form's `syntax` field is the first 255 characters,
not the first 1023 the claim (and the code's intent) prescribe.  The
truncation warning is emitted and the untruncated value does appear
verbatim in the comments accretion, as the claim states. -/
theorem C5_syntacticTree_truncation :
    (process_lingsync_datum
        { did := "d",
          datumFields := [⟨"syntacticTreeLatex", String.mk (List.replicate 1024 'a')⟩] }
        "c").old_form.syn
      = String.mk (List.replicate 255 'a') ∧
    String.mk (List.replicate 255 'a') ≠ pyTake 1023 (String.mk (List.replicate 1024 'a')) ∧
    (process_lingsync_datum
        { did := "d",
          datumFields := [⟨"syntacticTreeLatex", String.mk (List.replicate 1024 'a')⟩] }
        "c").docspecific
      = ["The syntacticTreeLatex \"" ++ String.mk (List.replicate 1024 'a') ++
         "\" of datum d is too long and will be truncated."] ∧
    (List.replicate 1024 'a') <:+:
      (process_lingsync_datum
        { did := "d",
          datumFields := [⟨"syntacticTreeLatex", String.mk (List.replicate 1024 'a')⟩] }
        "c").old_form.comments.data :=
  ⟨by decide, by decide, by decide,
   ⟨("LingSync datum syntacticTreeLatex value without truncation: ‘").data, ['.', '’'],
    by decide⟩⟩

/-- Claim C6: placeholder fallback without warning.  An empty (or absent,
which reads back as empty) utterance yields the literal transcription
`u'PLACEHOLDER'` with no warning (lines 1682-1687, the warning is
commented out), an empty translation yields exactly one `u'PLACEHOLDER'`
translation with no warning (lines 1756-1767), and a datum exercising
both converts with empty docspecific and general warning lists. -/
theorem C6_placeholder_fallback_silent :
    (∀ datumId : String, transcriptionStep "" datumId = ("PLACEHOLDER", false, [])) ∧
    translationStep "" = [("PLACEHOLDER", "")] ∧
    (process_lingsync_datum { did := "d1" } "corp").old_form.transcription = "PLACEHOLDER" ∧
    (process_lingsync_datum { did := "d1" } "corp").old_form.translations
      = [("PLACEHOLDER", "")] ∧
    (process_lingsync_datum { did := "d1" } "corp").docspecific = [] ∧
    (process_lingsync_datum { did := "d1" } "corp").general = [] := by
  exact ⟨fun datumId => rfl, rfl, by decide, by decide, by decide, by decide⟩

/-- Claim C7: a created collection's `contents` value lists the resolved
destination ids of the non-deleted staged forms of the collection's
source session (that is the filter computed by `collectionContents`),
sorted ascending by the forms' source `date_entered` (the sorted pair
list is `pyPairLe`-sorted and a permutation of the filtered list); for
three forms with entry timestamps `t3 > t1 > t2` and destination ids
10, 11, 12, the rebuilt contents order is `t1, t2, t3` — ids 11, 12, 10
— not id order. -/
theorem C7_collection_content_ordering :
    (∀ (forms : List OldForm) (rmF : List (String × Nat)) (sid : String),
      (List.insertionSort (fun a b => pyPairLe a b = true)
          (collectionContents forms rmF sid)).Sorted (fun a b => pyPairLe a b = true) ∧
      (List.insertionSort (fun a b => pyPairLe a b = true)
          (collectionContents forms rmF sid)).Perm (collectionContents forms rmF sid)) ∧
    contentsValue
      [{ date_entered := "2015-03-01T00:00:00.000Z", lingsync_session_id := some "s",
         lingsync_datum_id := "da" },
       { date_entered := "2015-01-01T00:00:00.000Z", lingsync_session_id := some "s",
         lingsync_datum_id := "db" },
       { date_entered := "2015-02-01T00:00:00.000Z", lingsync_session_id := some "s",
         lingsync_datum_id := "dc" }]
      [("da", 10), ("db", 11), ("dc", 12)] "s"
    = "form[11]\nform[12]\nform[10]" := by
  constructor
  · intro forms rmF sid
    haveI : IsTotal (String × Nat) (fun a b => pyPairLe a b = true) := by
      constructor
      intro a b
      rcases Bool.or_eq_true_iff.mp (pyPairLe_total a b) with h | h
      · exact Or.inl h
      · exact Or.inr h
    haveI : IsTrans (String × Nat) (fun a b => pyPairLe a b = true) := by
      constructor
      intro a b c h1 h2
      exact pyPairLe_trans a b c h1 h2
    exact ⟨List.sorted_insertionSort _ _, List.perm_insertionSort _ _⟩
  · decide

/-- Claim C8: grammaticality-judgement repair.  For a judgement longer
than 3 characters, the form's grammaticality is the maximal leading run
of characters from `{*, ?, #, !}`, the remainder of the value ends up in
the comment the block appends (the source copies the whole judgement into
it, so the remainder appears there), and the general warning is emitted;
a judgement of at most 3 characters passes through unchanged with no
warning.  The final conjuncts evaluate a full datum conversion on
judgement `"*bad sentence"`. -/
theorem C8_judgement_repair :
    (∀ j : String, pyLen j > 3 →
      (judgementStep j).1
          = String.mk (j.data.takeWhile (fun c => c = '*' ∨ c = '?' ∨ c = '#' ∨ c = '!')) ∧
      (judgementStep j).2.2 = [judgementGeneralWarning] ∧
      ∃ c, (judgementStep j).2.1 = some c ∧
        (j.data.dropWhile (fun c => c = '*' ∨ c = '?' ∨ c = '#' ∨ c = '!')) <:+: c.data) ∧
    (∀ j : String, pyLen j ≤ 3 → judgementStep j = (j, none, [])) ∧
    ((process_lingsync_datum
        { did := "d2", datumFields := [⟨"judgement", "*bad sentence"⟩] }
        "corp").old_form.grammaticality = "*" ∧
     ("bad sentence").data <:+:
       (process_lingsync_datum
         { did := "d2", datumFields := [⟨"judgement", "*bad sentence"⟩] }
         "corp").old_form.comments.data ∧
     (process_lingsync_datum
        { did := "d2", datumFields := [⟨"judgement", "*bad sentence"⟩] }
        "corp").general = [judgementGeneralWarning]) := by
  refine ⟨?_, ?_, by decide,
    ⟨("Comment from LingSync judgement field: *").data, ['.'], by decide⟩, by decide⟩
  · intro j hj
    have hne : j ≠ "" := by
      intro h
      rw [h] at hj
      simp [pyLen] at hj
    refine ⟨by simp [judgementStep, hne, hj], by simp [judgementStep, hne, hj], ?_⟩
    refine ⟨punctuate_period_safe ("Comment from LingSync judgement field: " ++ j),
      by simp [judgementStep, hne, hj], ?_⟩
    refine List.IsInfix.trans ?_ (pps_data_contained _)
    refine ⟨("Comment from LingSync judgement field: ").data ++
      (j.data.takeWhile (fun c => c = '*' ∨ c = '?' ∨ c = '#' ∨ c = '!')), [], ?_⟩
    simp [String.data_append, List.takeWhile_append_dropWhile]
  · intro j hj
    by_cases hne : j = ""
    · rw [hne]; rfl
    · simp [judgementStep, hne, Nat.not_lt.mpr hj]

/-- Witness for C8: the repair conjuncts at judgement `"*bad sentence"`
and the pass-through conjunct at `"ok"`. -/
theorem C8_judgement_repair_witness :
    (judgementStep "*bad sentence").2.2 = [judgementGeneralWarning] ∧
    judgementStep "ok" = ("ok", none, []) :=
  ⟨(C8_judgement_repair.1 "*bad sentence" (by decide)).2.1,
   C8_judgement_repair.2.1 "ok" (by decide)⟩

/-- Claim C9: soft-delete echo asymmetry.  A datum with `trashed =
'deleted'` still converts (the mapper always returns a form payload) with
the deletion flag set; during upload such a form is created and then
immediately deleted via the newly assigned identifier, and its datum id
is not recorded in the Relational Map (the loop returns the map
unchanged); a session with `trashed = 'deleted'` converts to `None`. -/
theorem C9_soft_delete_asymmetry :
    (∀ (doc : LSDatumDoc) (db : String), doc.trashed = some "deleted" →
      (process_lingsync_datum doc db).old_form.lingsync_deleted = true) ∧
    (∀ sdoc : LSSessionDoc, sdoc.trashed = some "deleted" →
      process_lingsync_session sdoc = none) ∧
    (∀ (f : OldForm) (n m : Nat) (resp : List (Option Nat)) (rm : List (String × Nat)),
      f.lingsync_deleted = true → n ≠ 0 → m ≠ 0 →
      formsLoop [f] (some n :: some m :: resp) rm
        = .ok rm [("create", "forms", f.lingsync_datum_id), ("delete", "forms", toString n)]
            resp) := by
  refine ⟨?_, ?_, ?_⟩
  · intro doc db h
    simp [process_lingsync_datum, h]
  · intro sdoc h
    simp only [process_lingsync_session, h]
    split <;> simp
  · intro f n m resp rm hd hn hm
    simp [formsLoop, truthyId, hn, hm, hd]

/-- Witness for C9: the three conjuncts at concrete inputs. -/
theorem C9_soft_delete_asymmetry_witness :
    (process_lingsync_datum { did := "d3", trashed := some "deleted" } "corp").old_form.lingsync_deleted = true ∧
    process_lingsync_session
        { sid := "s2", sessionFields := some [⟨"goal", "G"⟩], trashed := some "deleted" } = none ∧
    formsLoop [{ lingsync_deleted := true, lingsync_datum_id := "d3" }] [some 7, some 9] []
      = .ok [] [("create", "forms", "d3"), ("delete", "forms", "7")] [] :=
  ⟨C9_soft_delete_asymmetry.1 { did := "d3", trashed := some "deleted" } "corp" rfl,
   C9_soft_delete_asymmetry.2.1
     { sid := "s2", sessionFields := some [⟨"goal", "G"⟩], trashed := some "deleted" } rfl,
   C9_soft_delete_asymmetry.2.2
     { lingsync_deleted := true, lingsync_datum_id := "d3" } 7 9 [] []
     rfl (by decide) (by decide)⟩

/-- Claim C10: a user document whose stripped username is missing or
empty maps to a result whose resource name is still `'users'` but whose
primary payload is `None`, and `update_state` tests only the resource
name before appending, so the `None` payload itself is appended to the
staged `users` list, which can therefore contain a null entry. -/
theorem C10_null_user_payload_staged :
    (∀ doc : LSUserDoc, (my_strip doc.username).getD "" = "" →
      (process_lingsync_user doc).old_resource = "users" ∧
      (process_lingsync_user doc).old_value = none ∧
      (update_state_user (process_lingsync_user doc) ({} : ConvState)).users = [none]) ∧
    (∀ (res : UserResult) (st : ConvState),
      res.old_resource = "users" → res.old_value = none → ¬ st.users.contains none →
      (update_state_user res st).users = st.users ++ [none]) := by
  constructor
  · intro doc h
    refine ⟨?_, ?_, ?_⟩ <;> simp [process_lingsync_user, h, update_state_user, appendNew]
  · intro res st h1 h2 hc
    have hc' : none ∉ st.users := by simpa using hc
    simp [update_state_user, h1, h2, appendNew, hc']

/-- Witness for C10: a user document whose username is whitespace only. -/
theorem C10_null_user_payload_staged_witness :
    (process_lingsync_user { username := some "  " }).old_resource = "users" ∧
    (process_lingsync_user { username := some "  " }).old_value = none ∧
    (update_state_user (process_lingsync_user { username := some "  " })
      ({} : ConvState)).users = [none] :=
  C10_null_user_payload_staged.1 { username := some "  " } (by decide)

end LingSync2Old
